import Mathlib

/-!
Shallow embedding of the buttplug-rs core message model
(src/buttplug/src/core/messages.rs), the protocol abstraction
(src/buttplug/src/devices/protocol.rs) and the Lovense vendor protocol
(src/buttplug/src/devices/protocols/lovense.rs), with the serde_json
serialization contract modelled at the JSON-value level.

Modelling conventions:
- Rust u32 / u8 are Fin (2^32) / Fin (2^8).
- Rust f64 is modelled by F64: finite doubles (a subset of the rationals,
  printed exactly by serde_json and parsed back to the same double) are
  F64.finite q; the non-finite values are separate constructors because
  serde_json serializes them as JSON null and fails to deserialize them.
- serde_json serialization is modelled as functions into an inductive Json
  value type (the serde_json::Value tree); deserialization is a partial
  function Json -> Option _.  Struct deserialization looks fields up by
  their serde-renamed name (order-insensitive, unknown fields ignored),
  mirroring serde derive semantics.
- HashMap<String, MessageAttributes> is modelled as an association list.
- Rust panics and deserialization failures are modelled as Option/Except.
- Async functions perform no real concurrency in this code; they are
  modelled as pure state-passing functions, with transport writes
  (DeviceImpl::write_value) collected into an explicit output trace.
-/

namespace Buttplug

/-- Rust u32, as a bounded natural number. -/
abbrev U32 := Fin 4294967296

/-- Rust u8, as a bounded natural number. -/
abbrev U8 := Fin 256

/-- Rust f64 as far as serde_json is concerned: a finite double denotes an
exact rational value (serde_json prints the shortest decimal that parses
back to the identical double, so finite doubles round-trip exactly); NaN
and the infinities are kept separate because serde_json writes them as
JSON null. -/
inductive F64 where
  | finite (q : Rat)
  | nan
  | posInf
  | negInf
deriving DecidableEq

/-- True exactly on finite doubles. -/
def F64.isFinite : F64 → Bool
  | .finite _ => true
  | _ => false

/-- Rust f64 default value 0.0. -/
def F64.zero : F64 := .finite 0

/-- Modelled from the spec: the Endpoint enum (crate::devices::Endpoint) is
not under src/; the spec describes it as an externally defined enumerated
logical transport channel that serializes as a lowercase channel-name
string (e.g. "tx"), and the protocol binds one outgoing and one incoming
channel per device, so the tx and rx channels are modelled. -/
inductive Endpoint where
  | tx
  | rx
deriving DecidableEq

/-- JSON value tree, standing for serde_json::Value.  Objects keep their
fields as an ordered association list. -/
inductive Json where
  | null
  | bool (b : Bool)
  | num (q : Rat)
  | str (s : String)
  | arr (elems : List Json)
  | obj (fields : List (String × Json))

/-- Field lookup by name in a JSON object, as serde derive does: first
matching key wins, unknown fields are ignored, order does not matter. -/
def lookupField : List (String × Json) → String → Option Json
  | [], _ => none
  | (k2, v) :: t, k => if k2 = k then some v else lookupField t k

/-- Element-wise deserialization of a JSON array, failing if any element
fails (serde sequence semantics). -/
def mapOpt (g : α → Option β) : List α → Option (List β)
  | [] => some []
  | x :: xs =>
    match g x with
    | none => none
    | some y => (mapOpt g xs).map (fun ys => y :: ys)

/-- Serialization of u32 (serde_json writes the integer). -/
def u32ToJson (n : U32) : Json := .num ((n : Nat) : Rat)

/-- Deserialization of u32: accepts an integral JSON number in range. -/
def jsonToU32 : Json → Option U32
  | .num q =>
    if h : q.den = 1 ∧ 0 ≤ q.num ∧ q.num.toNat < 4294967296 then
      some ⟨q.num.toNat, h.2.2⟩
    else none
  | _ => none

/-- Serialization of u8. -/
def u8ToJson (n : U8) : Json := .num ((n : Nat) : Rat)

/-- Deserialization of u8: accepts an integral JSON number in range. -/
def jsonToU8 : Json → Option U8
  | .num q =>
    if h : q.den = 1 ∧ 0 ≤ q.num ∧ q.num.toNat < 256 then
      some ⟨q.num.toNat, h.2.2⟩
    else none
  | _ => none

/-- Serialization of f64: serde_json writes a finite double as a number
and a non-finite double as null. -/
def f64ToJson : F64 → Json
  | .finite q => .num q
  | _ => .null

/-- Deserialization of f64: any JSON number parses (to a finite double);
null does not deserialize as f64. -/
def jsonToF64 : Json → Option F64
  | .num q => some (.finite q)
  | _ => none

/-- Serialization of bool. -/
def boolToJson (b : Bool) : Json := .bool b

/-- Deserialization of bool. -/
def jsonToBool : Json → Option Bool
  | .bool b => some b
  | _ => none

/-- Serialization of String. -/
def strToJson (s : String) : Json := .str s

/-- Deserialization of String. -/
def jsonToStr : Json → Option String
  | .str s => some s
  | _ => none

/-- Modelled from the spec: Endpoint serializes as a lowercase
channel-name string (e.g. "tx"). -/
def endpointToJson : Endpoint → Json
  | .tx => .str "tx"
  | .rx => .str "rx"

/-- Deserialization of Endpoint from its lowercase channel-name string. -/
def jsonToEndpoint : Json → Option Endpoint
  | .str s =>
    if s = "tx" then some .tx
    else if s = "rx" then some .rx
    else none
  | _ => none

/-- Serialization of an Option field: serde writes None as null. -/
def optToJson (f : α → Json) : Option α → Json
  | none => .null
  | some x => f x

/-- Deserialization of an Option field present in the object: null is
None, anything else must deserialize as the inner type. -/
def jsonToOpt (g : Json → Option α) : Json → Option (Option α)
  | .null => some none
  | j => (g j).map some

/-- Deserialization of an Option field by name: serde treats a missing
Option field as None. -/
def getOptField (fs : List (String × Json)) (k : String) (g : Json → Option α) :
    Option (Option α) :=
  match lookupField fs k with
  | none => some none
  | some j => jsonToOpt g j

/-- The Ok message (struct Ok, messages.rs): carries only the id.
Field id is serde-renamed "Id"; derive(Default) gives id = 0. -/
structure Ok where
  id : U32
deriving DecidableEq

/-- Ok::new. -/
def Ok.new (id : U32) : Ok := ⟨id⟩

/-- Ok's derived Default (all fields zero). -/
def Ok.default : Ok := ⟨0⟩

/-- ErrorCode enum (repr(u8), Serialize_repr): discriminants 0..4. -/
inductive ErrorCode where
  | ErrorUnknown
  | ErrorHandshake
  | ErrorPing
  | ErrorMessage
  | ErrorDevice
deriving DecidableEq

/-- The numeric discriminant of ErrorCode, per repr(u8) and declaration
order (ErrorUnknown = 0). -/
def ErrorCode.discr : ErrorCode → Nat
  | .ErrorUnknown => 0
  | .ErrorHandshake => 1
  | .ErrorPing => 2
  | .ErrorMessage => 3
  | .ErrorDevice => 4

/-- The Error message (struct Error, messages.rs). -/
structure Error where
  id : U32
  error_code : ErrorCode
  error_message : String
deriving DecidableEq

/-- Error::new: id is fixed to 0. -/
def Error.new (error_code : ErrorCode) (error_message : String) : Error :=
  ⟨0, error_code, error_message⟩

/-- Modelled from the spec: core/errors.rs is not under src/; the spec's
five-way error taxonomy carries one human-readable message string per
category, and the From impl in messages.rs pattern-matches exactly these
five variants, each with a payload exposing .message. -/
structure ButtplugDeviceError where
  message : String
deriving DecidableEq

/-- ButtplugDeviceError::new, as called from lovense.rs. -/
def ButtplugDeviceError.new (message : String) : ButtplugDeviceError := ⟨message⟩

/-- Modelled from the spec: message-category error payload. -/
structure ButtplugMessageError where
  message : String
deriving DecidableEq

/-- Modelled from the spec: ping-category error payload. -/
structure ButtplugPingError where
  message : String
deriving DecidableEq

/-- Modelled from the spec: handshake-category error payload. -/
structure ButtplugHandshakeError where
  message : String
deriving DecidableEq

/-- Modelled from the spec: unknown-category error payload. -/
structure ButtplugUnknownError where
  message : String
deriving DecidableEq

/-- Modelled from the spec: the closed five-way ButtplugError union
(core/errors.rs), with the variant set fixed by the exhaustive match in
messages.rs lines 100-114. -/
inductive ButtplugError where
  | ButtplugDeviceError (e : ButtplugDeviceError)
  | ButtplugMessageError (e : ButtplugMessageError)
  | ButtplugPingError (e : ButtplugPingError)
  | ButtplugHandshakeError (e : ButtplugHandshakeError)
  | ButtplugUnknownError (e : ButtplugUnknownError)
deriving DecidableEq

/-- From<ButtplugError> for Error (messages.rs lines 96-117): one match
picks the ErrorCode, a second match extracts the category's message, and
Error::new stamps id 0. -/
def Error.fromButtplugError (error : ButtplugError) : Error :=
  let code := match error with
    | .ButtplugDeviceError _ => ErrorCode.ErrorDevice
    | .ButtplugMessageError _ => ErrorCode.ErrorMessage
    | .ButtplugPingError _ => ErrorCode.ErrorPing
    | .ButtplugHandshakeError _ => ErrorCode.ErrorHandshake
    | .ButtplugUnknownError _ => ErrorCode.ErrorUnknown
  let msg := match error with
    | .ButtplugDeviceError s => s.message
    | .ButtplugMessageError s => s.message
    | .ButtplugPingError s => s.message
    | .ButtplugHandshakeError s => s.message
    | .ButtplugUnknownError s => s.message
  Error.new code msg

/-- The Ping message; its hand-written Default sets id = 1. -/
structure Ping where
  id : U32
deriving DecidableEq

/-- Ping's hand-written Default impl: id = 1. -/
def Ping.default : Ping := ⟨1⟩

/-- The Test message (id, TestString). -/
structure Test where
  id : U32
  test_string : String
deriving DecidableEq

/-- Test's derived Default: id = 0, empty string. -/
def Test.default : Test := ⟨0, ""⟩

/-- Test::new: id = 1. -/
def Test.new (test : String) : Test := ⟨1, test⟩

/-- MessageAttributes capability descriptor: six independently optional
fields. -/
structure MessageAttributes where
  feature_count : Option U32
  step_count : Option (List U32)
  endpoints : Option (List Endpoint)
  max_duration : Option (List U32)
  patterns : Option (List (List String))
  actuator_type : Option (List String)
deriving DecidableEq

/-- DeviceMessageInfo: device index, name, and the capability map
(HashMap<String, MessageAttributes> modelled as an association list). -/
structure DeviceMessageInfo where
  device_index : U32
  device_name : String
  device_messages : List (String × MessageAttributes)
deriving DecidableEq

/-- The DeviceList message. -/
structure DeviceList where
  id : U32
  devices : List DeviceMessageInfo
deriving DecidableEq

/-- DeviceList's derived Default. -/
def DeviceList.default : DeviceList := ⟨0, []⟩

/-- The DeviceAdded message. -/
structure DeviceAdded where
  id : U32
  device_index : U32
  device_name : String
  device_messages : List (String × MessageAttributes)
deriving DecidableEq

/-- DeviceAdded's derived Default. -/
def DeviceAdded.default : DeviceAdded := ⟨0, 0, "", []⟩

/-- From<&DeviceAdded> for DeviceMessageInfo: same fields, response-shape
projection (drops the id). -/
def DeviceMessageInfo.fromDeviceAdded (device_added : DeviceAdded) : DeviceMessageInfo :=
  ⟨device_added.device_index, device_added.device_name, device_added.device_messages⟩

/-- The DeviceRemoved message. -/
structure DeviceRemoved where
  id : U32
  device_index : U32
deriving DecidableEq

/-- DeviceRemoved's derived Default. -/
def DeviceRemoved.default : DeviceRemoved := ⟨0, 0⟩

/-- The StartScanning message; hand-written Default sets id = 1. -/
structure StartScanning where
  id : U32
deriving DecidableEq

/-- StartScanning's hand-written Default impl: id = 1. -/
def StartScanning.default : StartScanning := ⟨1⟩

/-- The StopScanning message; hand-written Default sets id = 1. -/
structure StopScanning where
  id : U32
deriving DecidableEq

/-- StopScanning's hand-written Default impl: id = 1. -/
def StopScanning.default : StopScanning := ⟨1⟩

/-- The ScanningFinished message; derived Default gives id = 0. -/
structure ScanningFinished where
  id : U32
deriving DecidableEq

/-- ScanningFinished's derived Default. -/
def ScanningFinished.default : ScanningFinished := ⟨0⟩

/-- The RequestDeviceList message; hand-written Default sets id = 1. -/
structure RequestDeviceList where
  id : U32
deriving DecidableEq

/-- RequestDeviceList's hand-written Default impl: id = 1. -/
def RequestDeviceList.default : RequestDeviceList := ⟨1⟩

/-- The RequestServerInfo message. -/
structure RequestServerInfo where
  id : U32
  client_name : String
  message_version : U32
deriving DecidableEq

/-- RequestServerInfo's derived Default: id = 0. -/
def RequestServerInfo.default : RequestServerInfo := ⟨0, "", 0⟩

/-- RequestServerInfo::new: id = 1. -/
def RequestServerInfo.new (client_name : String) (message_version : U32) :
    RequestServerInfo :=
  ⟨1, client_name, message_version⟩

/-- The ServerInfo message. -/
structure ServerInfo where
  id : U32
  major_version : U32
  minor_version : U32
  build_version : U32
  message_version : U32
  max_ping_time : U32
  server_name : String
deriving DecidableEq

/-- ServerInfo's derived Default: all zero / empty. -/
def ServerInfo.default : ServerInfo := ⟨0, 0, 0, 0, 0, 0, ""⟩

/-- ServerInfo::new: id = 0. -/
def ServerInfo.new (server_name : String) (message_version : U32)
    (max_ping_time : U32) : ServerInfo :=
  ⟨0, 0, 0, 0, message_version, max_ping_time, server_name⟩

/-- LogLevel enum, seven ordered levels Off..Trace.  Note it derives the
plain serde Serialize/Deserialize (not the _repr forms), so it serializes
as the variant-name string. -/
inductive LogLevel where
  | Off
  | Fatal
  | Error
  | Warn
  | Info
  | Debug
  | Trace
deriving DecidableEq

/-- The declaration-order discriminant of LogLevel (Off = 0). -/
def LogLevel.discr : LogLevel → Nat
  | .Off => 0
  | .Fatal => 1
  | .Error => 2
  | .Warn => 3
  | .Info => 4
  | .Debug => 5
  | .Trace => 6

/-- The RequestLog message. -/
structure RequestLog where
  id : U32
  log_level : LogLevel
deriving DecidableEq

/-- RequestLog::new: id = 1. -/
def RequestLog.new (log_level : LogLevel) : RequestLog := ⟨1, log_level⟩

/-- The Log message. -/
structure Log where
  id : U32
  log_level : LogLevel
  log_message : String
deriving DecidableEq

/-- Log::new: id = 0. -/
def Log.new (log_level : LogLevel) (log_message : String) : Log :=
  ⟨0, log_level, log_message⟩

/-- The StopDeviceCmd message. -/
structure StopDeviceCmd where
  id : U32
  device_index : U32
deriving DecidableEq

/-- StopDeviceCmd's derived Default. -/
def StopDeviceCmd.default : StopDeviceCmd := ⟨0, 0⟩

/-- StopDeviceCmd::new: id = 1. -/
def StopDeviceCmd.new (device_index : U32) : StopDeviceCmd := ⟨1, device_index⟩

/-- The StopAllDevices message. -/
structure StopAllDevices where
  id : U32
deriving DecidableEq

/-- StopAllDevices's derived Default. -/
def StopAllDevices.default : StopAllDevices := ⟨0⟩

/-- One per-motor vibration subcommand (Index, Speed). -/
structure VibrateSubcommand where
  index : U32
  speed : F64
deriving DecidableEq

/-- VibrateSubcommand::new. -/
def VibrateSubcommand.new (index : U32) (speed : F64) : VibrateSubcommand :=
  ⟨index, speed⟩

/-- The VibrateCmd message. -/
structure VibrateCmd where
  id : U32
  device_index : U32
  speeds : List VibrateSubcommand
deriving DecidableEq

/-- VibrateCmd's derived Default. -/
def VibrateCmd.default : VibrateCmd := ⟨0, 0, []⟩

/-- VibrateCmd::new: id = 1. -/
def VibrateCmd.new (device_index : U32) (speeds : List VibrateSubcommand) :
    VibrateCmd :=
  ⟨1, device_index, speeds⟩

/-- One linear-motion subcommand (Index, Duration, Position). -/
structure VectorSubcommand where
  index : U32
  duration : U32
  position : F64
deriving DecidableEq

/-- VectorSubcommand::new. -/
def VectorSubcommand.new (index : U32) (duration : U32) (position : F64) :
    VectorSubcommand :=
  ⟨index, duration, position⟩

/-- The LinearCmd message. -/
structure LinearCmd where
  id : U32
  device_index : U32
  vectors : List VectorSubcommand
deriving DecidableEq

/-- LinearCmd's derived Default. -/
def LinearCmd.default : LinearCmd := ⟨0, 0, []⟩

/-- LinearCmd::new: id = 1. -/
def LinearCmd.new (device_index : U32) (vectors : List VectorSubcommand) :
    LinearCmd :=
  ⟨1, device_index, vectors⟩

/-- One rotation subcommand (Index, Speed, Clockwise). -/
structure RotationSubcommand where
  index : U32
  speed : F64
  clockwise : Bool
deriving DecidableEq

/-- RotationSubcommand::new. -/
def RotationSubcommand.new (index : U32) (speed : F64) (clockwise : Bool) :
    RotationSubcommand :=
  ⟨index, speed, clockwise⟩

/-- The RotateCmd message. -/
structure RotateCmd where
  id : U32
  device_index : U32
  rotations : List RotationSubcommand
deriving DecidableEq

/-- RotateCmd's derived Default. -/
def RotateCmd.default : RotateCmd := ⟨0, 0, []⟩

/-- RotateCmd::new: id = 1. -/
def RotateCmd.new (device_index : U32) (rotations : List RotationSubcommand) :
    RotateCmd :=
  ⟨1, device_index, rotations⟩

/-- The FleshlightLaunchFW12Cmd message (u8 position and speed). -/
structure FleshlightLaunchFW12Cmd where
  id : U32
  device_index : U32
  position : U8
  speed : U8
deriving DecidableEq

/-- FleshlightLaunchFW12Cmd's derived Default. -/
def FleshlightLaunchFW12Cmd.default : FleshlightLaunchFW12Cmd := ⟨0, 0, 0, 0⟩

/-- FleshlightLaunchFW12Cmd::new: id = 1. -/
def FleshlightLaunchFW12Cmd.new (device_index : U32) (position : U8)
    (speed : U8) : FleshlightLaunchFW12Cmd :=
  ⟨1, device_index, position, speed⟩

/-- The LovenseCmd message (no Default impl). -/
structure LovenseCmd where
  id : U32
  device_index : U32
  command : String
deriving DecidableEq

/-- LovenseCmd::new: id = 1. -/
def LovenseCmd.new (device_index : U32) (command : String) : LovenseCmd :=
  ⟨1, device_index, command⟩

/-- The KiirooCmd message (no Default impl). -/
structure KiirooCmd where
  id : U32
  device_index : U32
  command : String
deriving DecidableEq

/-- KiirooCmd::new: id = 1. -/
def KiirooCmd.new (device_index : U32) (command : String) : KiirooCmd :=
  ⟨1, device_index, command⟩

/-- The VorzeA10CycloneCmd message. -/
structure VorzeA10CycloneCmd where
  id : U32
  device_index : U32
  speed : U32
  clockwise : Bool
deriving DecidableEq

/-- VorzeA10CycloneCmd's derived Default. -/
def VorzeA10CycloneCmd.default : VorzeA10CycloneCmd := ⟨0, 0, 0, false⟩

/-- VorzeA10CycloneCmd::new: id = 1. -/
def VorzeA10CycloneCmd.new (device_index : U32) (speed : U32)
    (clockwise : Bool) : VorzeA10CycloneCmd :=
  ⟨1, device_index, speed, clockwise⟩

/-- The SingleMotorVibrateCmd message (f64 speed). -/
structure SingleMotorVibrateCmd where
  id : U32
  device_index : U32
  speed : F64
deriving DecidableEq

/-- SingleMotorVibrateCmd's derived Default. -/
def SingleMotorVibrateCmd.default : SingleMotorVibrateCmd := ⟨0, 0, F64.zero⟩

/-- SingleMotorVibrateCmd::new: id = 1. -/
def SingleMotorVibrateCmd.new (device_index : U32) (speed : F64) :
    SingleMotorVibrateCmd :=
  ⟨1, device_index, speed⟩

/-- The RawWriteCmd message (no Default impl). -/
structure RawWriteCmd where
  id : U32
  device_index : U32
  endpoint : Endpoint
  data : List U8
  write_with_response : Bool
deriving DecidableEq

/-- RawWriteCmd::new: id = 1. -/
def RawWriteCmd.new (device_index : U32) (endpoint : Endpoint)
    (data : List U8) (write_with_response : Bool) : RawWriteCmd :=
  ⟨1, device_index, endpoint, data, write_with_response⟩

/-- The RawReadCmd message (no Default impl). -/
structure RawReadCmd where
  id : U32
  device_index : U32
  endpoint : Endpoint
  expected_length : U32
  wait_for_data : Bool
deriving DecidableEq

/-- RawReadCmd::new: id = 1. -/
def RawReadCmd.new (device_index : U32) (endpoint : Endpoint)
    (expected_length : U32) (wait_for_data : Bool) : RawReadCmd :=
  ⟨1, device_index, endpoint, expected_length, wait_for_data⟩

/-- The RawReading message (no Default impl). -/
structure RawReading where
  id : U32
  device_index : U32
  endpoint : Endpoint
  data : List U8
deriving DecidableEq

/-- RawReading::new: id = 1. -/
def RawReading.new (device_index : U32) (endpoint : Endpoint)
    (data : List U8) : RawReading :=
  ⟨1, device_index, endpoint, data⟩

/-- The closed tagged union of all message types (messages.rs lines
709-740), in source declaration order. -/
inductive ButtplugMessageUnion where
  | Ok (msg : Ok)
  | Error (msg : Error)
  | Ping (msg : Ping)
  | Test (msg : Test)
  | RequestLog (msg : RequestLog)
  | Log (msg : Log)
  | RequestServerInfo (msg : RequestServerInfo)
  | ServerInfo (msg : ServerInfo)
  | DeviceList (msg : DeviceList)
  | DeviceAdded (msg : DeviceAdded)
  | DeviceRemoved (msg : DeviceRemoved)
  | StartScanning (msg : StartScanning)
  | StopScanning (msg : StopScanning)
  | ScanningFinished (msg : ScanningFinished)
  | RequestDeviceList (msg : RequestDeviceList)
  | VibrateCmd (msg : VibrateCmd)
  | LinearCmd (msg : LinearCmd)
  | RotateCmd (msg : RotateCmd)
  | FleshlightLaunchFW12Cmd (msg : FleshlightLaunchFW12Cmd)
  | LovenseCmd (msg : LovenseCmd)
  | KiirooCmd (msg : KiirooCmd)
  | VorzeA10CycloneCmd (msg : VorzeA10CycloneCmd)
  | SingleMotorVibrateCmd (msg : SingleMotorVibrateCmd)
  | RawWriteCmd (msg : RawWriteCmd)
  | RawReadCmd (msg : RawReadCmd)
  | RawReading (msg : RawReading)
  | StopDeviceCmd (msg : StopDeviceCmd)
  | StopAllDevices (msg : StopAllDevices)
deriving DecidableEq

/-- Accessors generated by the ButtplugMessage derive macro
(buttplug_derive/src/lib.rs, impl_buttplug_message_macro): get_id reads
self.id, set_id writes it, as_union wraps self in the matching union
variant.  One triple per deriving struct, in source order. -/
def Ok.get_id (self : Ok) : U32 := self.id

/-- Derive-macro set_id for Ok. -/
def Ok.set_id (self : Ok) (id : U32) : Ok := { self with id := id }

/-- Derive-macro as_union for Ok. -/
def Ok.as_union (self : Ok) : ButtplugMessageUnion := .Ok self

/-- Derive-macro get_id for Error. -/
def Error.get_id (self : Error) : U32 := self.id

/-- Derive-macro set_id for Error. -/
def Error.set_id (self : Error) (id : U32) : Error := { self with id := id }

/-- Derive-macro as_union for Error. -/
def Error.as_union (self : Error) : ButtplugMessageUnion := .Error self

/-- Derive-macro get_id for Ping. -/
def Ping.get_id (self : Ping) : U32 := self.id

/-- Derive-macro set_id for Ping. -/
def Ping.set_id (self : Ping) (id : U32) : Ping := { self with id := id }

/-- Derive-macro as_union for Ping. -/
def Ping.as_union (self : Ping) : ButtplugMessageUnion := .Ping self

/-- Derive-macro get_id for Test. -/
def Test.get_id (self : Test) : U32 := self.id

/-- Derive-macro set_id for Test. -/
def Test.set_id (self : Test) (id : U32) : Test := { self with id := id }

/-- Derive-macro as_union for Test. -/
def Test.as_union (self : Test) : ButtplugMessageUnion := .Test self

/-- Derive-macro get_id for DeviceList. -/
def DeviceList.get_id (self : DeviceList) : U32 := self.id

/-- Derive-macro set_id for DeviceList. -/
def DeviceList.set_id (self : DeviceList) (id : U32) : DeviceList :=
  { self with id := id }

/-- Derive-macro as_union for DeviceList. -/
def DeviceList.as_union (self : DeviceList) : ButtplugMessageUnion :=
  .DeviceList self

/-- Derive-macro get_id for DeviceAdded. -/
def DeviceAdded.get_id (self : DeviceAdded) : U32 := self.id

/-- Derive-macro set_id for DeviceAdded. -/
def DeviceAdded.set_id (self : DeviceAdded) (id : U32) : DeviceAdded :=
  { self with id := id }

/-- Derive-macro as_union for DeviceAdded. -/
def DeviceAdded.as_union (self : DeviceAdded) : ButtplugMessageUnion :=
  .DeviceAdded self

/-- Derive-macro get_id for DeviceRemoved. -/
def DeviceRemoved.get_id (self : DeviceRemoved) : U32 := self.id

/-- Derive-macro set_id for DeviceRemoved. -/
def DeviceRemoved.set_id (self : DeviceRemoved) (id : U32) : DeviceRemoved :=
  { self with id := id }

/-- Derive-macro as_union for DeviceRemoved. -/
def DeviceRemoved.as_union (self : DeviceRemoved) : ButtplugMessageUnion :=
  .DeviceRemoved self

/-- Derive-macro get_id for StartScanning. -/
def StartScanning.get_id (self : StartScanning) : U32 := self.id

/-- Derive-macro set_id for StartScanning. -/
def StartScanning.set_id (self : StartScanning) (id : U32) : StartScanning :=
  { self with id := id }

/-- Derive-macro as_union for StartScanning. -/
def StartScanning.as_union (self : StartScanning) : ButtplugMessageUnion :=
  .StartScanning self

/-- Derive-macro get_id for StopScanning. -/
def StopScanning.get_id (self : StopScanning) : U32 := self.id

/-- Derive-macro set_id for StopScanning. -/
def StopScanning.set_id (self : StopScanning) (id : U32) : StopScanning :=
  { self with id := id }

/-- Derive-macro as_union for StopScanning. -/
def StopScanning.as_union (self : StopScanning) : ButtplugMessageUnion :=
  .StopScanning self

/-- Derive-macro get_id for ScanningFinished. -/
def ScanningFinished.get_id (self : ScanningFinished) : U32 := self.id

/-- Derive-macro set_id for ScanningFinished. -/
def ScanningFinished.set_id (self : ScanningFinished) (id : U32) :
    ScanningFinished :=
  { self with id := id }

/-- Derive-macro as_union for ScanningFinished. -/
def ScanningFinished.as_union (self : ScanningFinished) : ButtplugMessageUnion :=
  .ScanningFinished self

/-- Derive-macro get_id for RequestDeviceList. -/
def RequestDeviceList.get_id (self : RequestDeviceList) : U32 := self.id

/-- Derive-macro set_id for RequestDeviceList. -/
def RequestDeviceList.set_id (self : RequestDeviceList) (id : U32) :
    RequestDeviceList :=
  { self with id := id }

/-- Derive-macro as_union for RequestDeviceList. -/
def RequestDeviceList.as_union (self : RequestDeviceList) :
    ButtplugMessageUnion :=
  .RequestDeviceList self

/-- Derive-macro get_id for RequestServerInfo. -/
def RequestServerInfo.get_id (self : RequestServerInfo) : U32 := self.id

/-- Derive-macro set_id for RequestServerInfo. -/
def RequestServerInfo.set_id (self : RequestServerInfo) (id : U32) :
    RequestServerInfo :=
  { self with id := id }

/-- Derive-macro as_union for RequestServerInfo. -/
def RequestServerInfo.as_union (self : RequestServerInfo) :
    ButtplugMessageUnion :=
  .RequestServerInfo self

/-- Derive-macro get_id for ServerInfo. -/
def ServerInfo.get_id (self : ServerInfo) : U32 := self.id

/-- Derive-macro set_id for ServerInfo. -/
def ServerInfo.set_id (self : ServerInfo) (id : U32) : ServerInfo :=
  { self with id := id }

/-- Derive-macro as_union for ServerInfo. -/
def ServerInfo.as_union (self : ServerInfo) : ButtplugMessageUnion :=
  .ServerInfo self

/-- Derive-macro get_id for RequestLog. -/
def RequestLog.get_id (self : RequestLog) : U32 := self.id

/-- Derive-macro set_id for RequestLog. -/
def RequestLog.set_id (self : RequestLog) (id : U32) : RequestLog :=
  { self with id := id }

/-- Derive-macro as_union for RequestLog. -/
def RequestLog.as_union (self : RequestLog) : ButtplugMessageUnion :=
  .RequestLog self

/-- Derive-macro get_id for Log. -/
def Log.get_id (self : Log) : U32 := self.id

/-- Derive-macro set_id for Log. -/
def Log.set_id (self : Log) (id : U32) : Log := { self with id := id }

/-- Derive-macro as_union for Log. -/
def Log.as_union (self : Log) : ButtplugMessageUnion := .Log self

/-- Derive-macro get_id for StopDeviceCmd. -/
def StopDeviceCmd.get_id (self : StopDeviceCmd) : U32 := self.id

/-- Derive-macro set_id for StopDeviceCmd. -/
def StopDeviceCmd.set_id (self : StopDeviceCmd) (id : U32) : StopDeviceCmd :=
  { self with id := id }

/-- Derive-macro as_union for StopDeviceCmd. -/
def StopDeviceCmd.as_union (self : StopDeviceCmd) : ButtplugMessageUnion :=
  .StopDeviceCmd self

/-- Derive-macro get_id for StopAllDevices. -/
def StopAllDevices.get_id (self : StopAllDevices) : U32 := self.id

/-- Derive-macro set_id for StopAllDevices. -/
def StopAllDevices.set_id (self : StopAllDevices) (id : U32) : StopAllDevices :=
  { self with id := id }

/-- Derive-macro as_union for StopAllDevices. -/
def StopAllDevices.as_union (self : StopAllDevices) : ButtplugMessageUnion :=
  .StopAllDevices self

/-- Derive-macro get_id for VibrateCmd. -/
def VibrateCmd.get_id (self : VibrateCmd) : U32 := self.id

/-- Derive-macro set_id for VibrateCmd. -/
def VibrateCmd.set_id (self : VibrateCmd) (id : U32) : VibrateCmd :=
  { self with id := id }

/-- Derive-macro as_union for VibrateCmd. -/
def VibrateCmd.as_union (self : VibrateCmd) : ButtplugMessageUnion :=
  .VibrateCmd self

/-- Derive-macro get_id for LinearCmd. -/
def LinearCmd.get_id (self : LinearCmd) : U32 := self.id

/-- Derive-macro set_id for LinearCmd. -/
def LinearCmd.set_id (self : LinearCmd) (id : U32) : LinearCmd :=
  { self with id := id }

/-- Derive-macro as_union for LinearCmd. -/
def LinearCmd.as_union (self : LinearCmd) : ButtplugMessageUnion :=
  .LinearCmd self

/-- Derive-macro get_id for RotateCmd. -/
def RotateCmd.get_id (self : RotateCmd) : U32 := self.id

/-- Derive-macro set_id for RotateCmd. -/
def RotateCmd.set_id (self : RotateCmd) (id : U32) : RotateCmd :=
  { self with id := id }

/-- Derive-macro as_union for RotateCmd. -/
def RotateCmd.as_union (self : RotateCmd) : ButtplugMessageUnion :=
  .RotateCmd self

/-- Derive-macro get_id for FleshlightLaunchFW12Cmd. -/
def FleshlightLaunchFW12Cmd.get_id (self : FleshlightLaunchFW12Cmd) : U32 :=
  self.id

/-- Derive-macro set_id for FleshlightLaunchFW12Cmd. -/
def FleshlightLaunchFW12Cmd.set_id (self : FleshlightLaunchFW12Cmd)
    (id : U32) : FleshlightLaunchFW12Cmd :=
  { self with id := id }

/-- Derive-macro as_union for FleshlightLaunchFW12Cmd. -/
def FleshlightLaunchFW12Cmd.as_union (self : FleshlightLaunchFW12Cmd) :
    ButtplugMessageUnion :=
  .FleshlightLaunchFW12Cmd self

/-- Derive-macro get_id for LovenseCmd. -/
def LovenseCmd.get_id (self : LovenseCmd) : U32 := self.id

/-- Derive-macro set_id for LovenseCmd. -/
def LovenseCmd.set_id (self : LovenseCmd) (id : U32) : LovenseCmd :=
  { self with id := id }

/-- Derive-macro as_union for LovenseCmd. -/
def LovenseCmd.as_union (self : LovenseCmd) : ButtplugMessageUnion :=
  .LovenseCmd self

/-- Derive-macro get_id for KiirooCmd. -/
def KiirooCmd.get_id (self : KiirooCmd) : U32 := self.id

/-- Derive-macro set_id for KiirooCmd. -/
def KiirooCmd.set_id (self : KiirooCmd) (id : U32) : KiirooCmd :=
  { self with id := id }

/-- Derive-macro as_union for KiirooCmd. -/
def KiirooCmd.as_union (self : KiirooCmd) : ButtplugMessageUnion :=
  .KiirooCmd self

/-- Derive-macro get_id for VorzeA10CycloneCmd. -/
def VorzeA10CycloneCmd.get_id (self : VorzeA10CycloneCmd) : U32 := self.id

/-- Derive-macro set_id for VorzeA10CycloneCmd. -/
def VorzeA10CycloneCmd.set_id (self : VorzeA10CycloneCmd) (id : U32) :
    VorzeA10CycloneCmd :=
  { self with id := id }

/-- Derive-macro as_union for VorzeA10CycloneCmd. -/
def VorzeA10CycloneCmd.as_union (self : VorzeA10CycloneCmd) :
    ButtplugMessageUnion :=
  .VorzeA10CycloneCmd self

/-- Derive-macro get_id for SingleMotorVibrateCmd. -/
def SingleMotorVibrateCmd.get_id (self : SingleMotorVibrateCmd) : U32 :=
  self.id

/-- Derive-macro set_id for SingleMotorVibrateCmd. -/
def SingleMotorVibrateCmd.set_id (self : SingleMotorVibrateCmd) (id : U32) :
    SingleMotorVibrateCmd :=
  { self with id := id }

/-- Derive-macro as_union for SingleMotorVibrateCmd. -/
def SingleMotorVibrateCmd.as_union (self : SingleMotorVibrateCmd) :
    ButtplugMessageUnion :=
  .SingleMotorVibrateCmd self

/-- Derive-macro get_id for RawWriteCmd. -/
def RawWriteCmd.get_id (self : RawWriteCmd) : U32 := self.id

/-- Derive-macro set_id for RawWriteCmd. -/
def RawWriteCmd.set_id (self : RawWriteCmd) (id : U32) : RawWriteCmd :=
  { self with id := id }

/-- Derive-macro as_union for RawWriteCmd. -/
def RawWriteCmd.as_union (self : RawWriteCmd) : ButtplugMessageUnion :=
  .RawWriteCmd self

/-- Derive-macro get_id for RawReadCmd. -/
def RawReadCmd.get_id (self : RawReadCmd) : U32 := self.id

/-- Derive-macro set_id for RawReadCmd. -/
def RawReadCmd.set_id (self : RawReadCmd) (id : U32) : RawReadCmd :=
  { self with id := id }

/-- Derive-macro as_union for RawReadCmd. -/
def RawReadCmd.as_union (self : RawReadCmd) : ButtplugMessageUnion :=
  .RawReadCmd self

/-- Derive-macro get_id for RawReading. -/
def RawReading.get_id (self : RawReading) : U32 := self.id

/-- Derive-macro set_id for RawReading. -/
def RawReading.set_id (self : RawReading) (id : U32) : RawReading :=
  { self with id := id }

/-- Derive-macro as_union for RawReading. -/
def RawReading.as_union (self : RawReading) : ButtplugMessageUnion :=
  .RawReading self

/-- Hand-written ButtplugMessage::get_id for the union (messages.rs lines
743-774): reads the wrapped struct's id field directly, one arm per
variant. -/
def ButtplugMessageUnion.get_id : ButtplugMessageUnion → U32
  | .Ok msg => msg.id
  | .Error msg => msg.id
  | .Log msg => msg.id
  | .RequestLog msg => msg.id
  | .Ping msg => msg.id
  | .Test msg => msg.id
  | .RequestServerInfo msg => msg.id
  | .ServerInfo msg => msg.id
  | .DeviceList msg => msg.id
  | .DeviceAdded msg => msg.id
  | .DeviceRemoved msg => msg.id
  | .StartScanning msg => msg.id
  | .StopScanning msg => msg.id
  | .ScanningFinished msg => msg.id
  | .RequestDeviceList msg => msg.id
  | .VibrateCmd msg => msg.id
  | .LinearCmd msg => msg.id
  | .RotateCmd msg => msg.id
  | .FleshlightLaunchFW12Cmd msg => msg.id
  | .LovenseCmd msg => msg.id
  | .KiirooCmd msg => msg.id
  | .VorzeA10CycloneCmd msg => msg.id
  | .SingleMotorVibrateCmd msg => msg.id
  | .RawWriteCmd msg => msg.id
  | .RawReadCmd msg => msg.id
  | .RawReading msg => msg.id
  | .StopDeviceCmd msg => msg.id
  | .StopAllDevices msg => msg.id

/-- Hand-written ButtplugMessage::set_id for the union (messages.rs lines
776-807): delegates to the wrapped struct's set_id. -/
def ButtplugMessageUnion.set_id : ButtplugMessageUnion → U32 → ButtplugMessageUnion
  | .Ok msg, id => .Ok (msg.set_id id)
  | .Error msg, id => .Error (msg.set_id id)
  | .Log msg, id => .Log (msg.set_id id)
  | .RequestLog msg, id => .RequestLog (msg.set_id id)
  | .Ping msg, id => .Ping (msg.set_id id)
  | .Test msg, id => .Test (msg.set_id id)
  | .RequestServerInfo msg, id => .RequestServerInfo (msg.set_id id)
  | .ServerInfo msg, id => .ServerInfo (msg.set_id id)
  | .DeviceList msg, id => .DeviceList (msg.set_id id)
  | .DeviceAdded msg, id => .DeviceAdded (msg.set_id id)
  | .DeviceRemoved msg, id => .DeviceRemoved (msg.set_id id)
  | .StartScanning msg, id => .StartScanning (msg.set_id id)
  | .StopScanning msg, id => .StopScanning (msg.set_id id)
  | .ScanningFinished msg, id => .ScanningFinished (msg.set_id id)
  | .RequestDeviceList msg, id => .RequestDeviceList (msg.set_id id)
  | .VibrateCmd msg, id => .VibrateCmd (msg.set_id id)
  | .LinearCmd msg, id => .LinearCmd (msg.set_id id)
  | .RotateCmd msg, id => .RotateCmd (msg.set_id id)
  | .FleshlightLaunchFW12Cmd msg, id => .FleshlightLaunchFW12Cmd (msg.set_id id)
  | .LovenseCmd msg, id => .LovenseCmd (msg.set_id id)
  | .KiirooCmd msg, id => .KiirooCmd (msg.set_id id)
  | .VorzeA10CycloneCmd msg, id => .VorzeA10CycloneCmd (msg.set_id id)
  | .SingleMotorVibrateCmd msg, id => .SingleMotorVibrateCmd (msg.set_id id)
  | .RawWriteCmd msg, id => .RawWriteCmd (msg.set_id id)
  | .RawReadCmd msg, id => .RawReadCmd (msg.set_id id)
  | .RawReading msg, id => .RawReading (msg.set_id id)
  | .StopDeviceCmd msg, id => .StopDeviceCmd (msg.set_id id)
  | .StopAllDevices msg, id => .StopAllDevices (msg.set_id id)

/-- Hand-written ButtplugMessage::as_union for the union (messages.rs
lines 809-811): unconditionally panics.  The panic is modelled as none;
on no input does it produce a value. -/
def ButtplugMessageUnion.as_union : ButtplugMessageUnion → Option ButtplugMessageUnion :=
  fun _ => none

/-- Modelled from the spec: ButtplugDeviceCommandMessageUnion (imported by
lovense.rs from core::messages but not present under src/) is the
device-command subset of the message taxonomy, which the spec enumerates
as VibrateCmd, RotateCmd, LinearCmd, FleshlightLaunchFW12Cmd, LovenseCmd,
KiirooCmd, VorzeA10CycloneCmd, SingleMotorVibrateCmd, RawWriteCmd,
RawReadCmd, RawReading, StopDeviceCmd, StopAllDevices. -/
inductive ButtplugDeviceCommandMessageUnion where
  | VibrateCmd (msg : VibrateCmd)
  | RotateCmd (msg : RotateCmd)
  | LinearCmd (msg : LinearCmd)
  | FleshlightLaunchFW12Cmd (msg : FleshlightLaunchFW12Cmd)
  | LovenseCmd (msg : LovenseCmd)
  | KiirooCmd (msg : KiirooCmd)
  | VorzeA10CycloneCmd (msg : VorzeA10CycloneCmd)
  | SingleMotorVibrateCmd (msg : SingleMotorVibrateCmd)
  | RawWriteCmd (msg : RawWriteCmd)
  | RawReadCmd (msg : RawReadCmd)
  | RawReading (msg : RawReading)
  | StopDeviceCmd (msg : StopDeviceCmd)
  | StopAllDevices (msg : StopAllDevices)
deriving DecidableEq

/-- The LovenseProtocol struct: bound at construction to one device's
incoming response channel and outgoing raw-command channel.  The channel
endpoints carry no inspectable state in this core, so they are modelled
as abstract handles. -/
structure LovenseProtocol where
  receiver : Nat
  sender : Nat
deriving DecidableEq

/-- ButtplugProtocolInitializer::new for LovenseProtocol: stores the two
channel handles. -/
def LovenseProtocol.new (receiver : Nat) (sender : Nat) : LovenseProtocol :=
  ⟨receiver, sender⟩

/-- ButtplugProtocol::initialize for LovenseProtocol: the body is empty
(async fn initialize(&mut self) {}), so the state is returned unchanged
and no ready flag exists to be set. -/
def LovenseProtocol.initCall (self : LovenseProtocol) : LovenseProtocol := self

/-- The bytes of the ASCII command string "Vibrate:20;" written by the
vibrate handler ("Vibrate:20;".as_bytes()). -/
def vibrateCmdBytes : List U8 :=
  [86, 105, 98, 114, 97, 116, 101, 58, 50, 48, 59]

/-- The constant rejection message built in lovense.rs's wildcard match
arm. -/
def lovenseRejectMsg : String :=
  "LovenseProtocol does not accept this message type."

/-- LovenseProtocol::handle_stop_device_cmd: replies Ok echoing
msg.get_id(); performs no transport write and touches no state. -/
def LovenseProtocol.handle_stop_device_cmd (_self : LovenseProtocol)
    (msg : StopDeviceCmd) :
    Except ButtplugError ButtplugMessageUnion × List RawWriteCmd :=
  (.ok (.Ok (Ok.new (StopDeviceCmd.get_id msg))), [])

/-- LovenseProtocol::handle_vibrate_cmd: builds a RawWriteCmd carrying
"Vibrate:20;" on the tx endpoint and writes it to the device, then
replies Ok.  The source shadows the parameter msg with the freshly built
RawWriteCmd (let msg = RawWriteCmd::new(...)), so the Ok reply carries
the RawWriteCmd's id, and the shadowing is reproduced here verbatim. -/
def LovenseProtocol.handle_vibrate_cmd (_self : LovenseProtocol)
    (msg : VibrateCmd) :
    Except ButtplugError ButtplugMessageUnion × List RawWriteCmd :=
  let msg := RawWriteCmd.new msg.device_index Endpoint.tx vibrateCmdBytes false
  (.ok (.Ok (Ok.new (RawWriteCmd.get_id msg))), [msg])

/-- LovenseProtocol::handle_rotate_cmd: replies Ok echoing msg.get_id()
without any transport write. -/
def LovenseProtocol.handle_rotate_cmd (_self : LovenseProtocol)
    (msg : RotateCmd) :
    Except ButtplugError ButtplugMessageUnion × List RawWriteCmd :=
  (.ok (.Ok (Ok.new (RotateCmd.get_id msg))), [])

/-- ButtplugProtocol::parse_message for LovenseProtocol (lovense.rs lines
38-56): dispatches StopDeviceCmd, VibrateCmd and RotateCmd to their
handlers and rejects every other device-command variant with a
ButtplugDeviceError.  All handlers take self by shared reference, so the
protocol state component of the result is always unchanged; transport
writes appear in the trace component. -/
def LovenseProtocol.parse_message (self : LovenseProtocol)
    (message : ButtplugDeviceCommandMessageUnion) :
    LovenseProtocol × Except ButtplugError ButtplugMessageUnion × List RawWriteCmd :=
  match message with
  | .StopDeviceCmd msg =>
    let r := self.handle_stop_device_cmd msg
    (self, r.1, r.2)
  | .VibrateCmd msg =>
    let r := self.handle_vibrate_cmd msg
    (self, r.1, r.2)
  | .RotateCmd msg =>
    let r := self.handle_rotate_cmd msg
    (self, r.1, r.2)
  | _ =>
    (self, .error (.ButtplugDeviceError (ButtplugDeviceError.new lovenseRejectMsg)), [])

/-- Whether lovense.rs's parse_message has a dedicated handler arm for
the given device-command variant. -/
def lovenseHandles : ButtplugDeviceCommandMessageUnion → Bool
  | .StopDeviceCmd _ => true
  | .VibrateCmd _ => true
  | .RotateCmd _ => true
  | _ => false

/-- Whether the character list needle occurs at the start of hay. -/
def startsWithChars : List Char → List Char → Bool
  | _, [] => true
  | [], _ :: _ => false
  | c :: cs, d :: ds => c = d && startsWithChars cs ds

/-- Whether the character list needle occurs anywhere inside hay. -/
def hasSubChars (needle : List Char) : List Char → Bool
  | [] => startsWithChars [] needle
  | c :: t => startsWithChars (c :: t) needle || hasSubChars needle t

/-- Serialization of ErrorCode (Serialize_repr on repr(u8)): the numeric
discriminant. -/
def errorCodeToJson : ErrorCode → Json
  | .ErrorUnknown => .num 0
  | .ErrorHandshake => .num 1
  | .ErrorPing => .num 2
  | .ErrorMessage => .num 3
  | .ErrorDevice => .num 4

/-- Deserialization of ErrorCode (Deserialize_repr): from the numeric
discriminant. -/
def jsonToErrorCode : Json → Option ErrorCode
  | .num q =>
    if q = 0 then some .ErrorUnknown
    else if q = 1 then some .ErrorHandshake
    else if q = 2 then some .ErrorPing
    else if q = 3 then some .ErrorMessage
    else if q = 4 then some .ErrorDevice
    else none
  | _ => none

/-- Serialization of LogLevel (plain serde derive on a C-like enum): the
variant-name string. -/
def logLevelToJson : LogLevel → Json
  | .Off => .str "Off"
  | .Fatal => .str "Fatal"
  | .Error => .str "Error"
  | .Warn => .str "Warn"
  | .Info => .str "Info"
  | .Debug => .str "Debug"
  | .Trace => .str "Trace"

/-- Deserialization of LogLevel from its variant-name string. -/
def jsonToLogLevel : Json → Option LogLevel
  | .str s =>
    if s = "Off" then some .Off
    else if s = "Fatal" then some .Fatal
    else if s = "Error" then some .Error
    else if s = "Warn" then some .Warn
    else if s = "Info" then some .Info
    else if s = "Debug" then some .Debug
    else if s = "Trace" then some .Trace
    else none
  | _ => none

/-- Serde serialization of struct Ok: one object with the renamed field
"Id". -/
def Ok.toJson (self : Ok) : Json :=
  .obj [("Id", u32ToJson self.id)]

/-- Serde deserialization of struct Ok. -/
def Ok.fromJson : Json → Option Ok
  | .obj fs => do
    let id ← (lookupField fs "Id").bind jsonToU32
    some ⟨id⟩
  | _ => none

/-- Serde serialization of struct Error: fields Id, ErrorCode,
ErrorMessage. -/
def Error.toJson (self : Error) : Json :=
  .obj [("Id", u32ToJson self.id),
        ("ErrorCode", errorCodeToJson self.error_code),
        ("ErrorMessage", strToJson self.error_message)]

/-- Serde deserialization of struct Error. -/
def Error.fromJson : Json → Option Error
  | .obj fs => do
    let id ← (lookupField fs "Id").bind jsonToU32
    let code ← (lookupField fs "ErrorCode").bind jsonToErrorCode
    let emsg ← (lookupField fs "ErrorMessage").bind jsonToStr
    some ⟨id, code, emsg⟩
  | _ => none

/-- Deserializing the serialization of a u32 recovers it. -/
@[simp]
theorem jsonToU32_u32ToJson (n : U32) : jsonToU32 (u32ToJson n) = some n := by
  simp [u32ToJson, jsonToU32, Rat.num_natCast, Rat.den_natCast,
    Int.toNat_natCast, n.isLt, Fin.eta]

/-- Deserializing the serialization of a u8 recovers it. -/
@[simp]
theorem jsonToU8_u8ToJson (n : U8) : jsonToU8 (u8ToJson n) = some n := by
  simp [u8ToJson, jsonToU8, Rat.num_natCast, Rat.den_natCast,
    Int.toNat_natCast, n.isLt, Fin.eta]

/-- Deserializing the serialization of a String recovers it. -/
@[simp]
theorem jsonToStr_strToJson (s : String) : jsonToStr (strToJson s) = some s := rfl

/-- Deserializing the serialization of a bool recovers it. -/
@[simp]
theorem jsonToBool_boolToJson (b : Bool) : jsonToBool (boolToJson b) = some b := rfl

/-- Deserializing the serialization of a finite double recovers it. -/
@[simp]
theorem jsonToF64_f64ToJson (x : F64) (h : x.isFinite = true) :
    jsonToF64 (f64ToJson x) = some x := by
  cases x <;> simp_all [F64.isFinite, f64ToJson, jsonToF64]

/-- Deserializing the serialization of an Endpoint recovers it. -/
@[simp]
theorem jsonToEndpoint_endpointToJson (e : Endpoint) :
    jsonToEndpoint (endpointToJson e) = some e := by
  cases e <;> rfl

/-- Deserializing the serialization of an ErrorCode recovers it. -/
@[simp]
theorem jsonToErrorCode_errorCodeToJson (c : ErrorCode) :
    jsonToErrorCode (errorCodeToJson c) = some c := by
  cases c <;> simp [errorCodeToJson, jsonToErrorCode]

/-- Deserializing the serialization of a LogLevel recovers it. -/
@[simp]
theorem jsonToLogLevel_logLevelToJson (l : LogLevel) :
    jsonToLogLevel (logLevelToJson l) = some l := by
  cases l <;> simp [logLevelToJson, jsonToLogLevel]

/-- Element-wise deserialization inverts element-wise serialization when
every element round-trips. -/
theorem mapOpt_map_of (g : β → Option α) (f : α → β) (xs : List α)
    (h : ∀ x ∈ xs, g (f x) = some x) :
    mapOpt g (List.map f xs) = some xs := by
  induction xs with
  | nil => rfl
  | cons x t ih =>
    have hx := h x (by simp)
    have ht := ih (fun y hy => h y (by simp [hy]))
    simp [mapOpt, hx, ht]

/-- List of u32 round-trips. -/
@[simp]
theorem mapOpt_u32 (xs : List U32) :
    mapOpt jsonToU32 (List.map u32ToJson xs) = some xs :=
  mapOpt_map_of _ _ _ (fun x _ => jsonToU32_u32ToJson x)

/-- List of u8 round-trips. -/
@[simp]
theorem mapOpt_u8 (xs : List U8) :
    mapOpt jsonToU8 (List.map u8ToJson xs) = some xs :=
  mapOpt_map_of _ _ _ (fun x _ => jsonToU8_u8ToJson x)

/-- List of String round-trips. -/
@[simp]
theorem mapOpt_str (xs : List String) :
    mapOpt jsonToStr (List.map strToJson xs) = some xs :=
  mapOpt_map_of _ _ _ (fun x _ => jsonToStr_strToJson x)

/-- List of Endpoint round-trips. -/
@[simp]
theorem mapOpt_endpoint (xs : List Endpoint) :
    mapOpt jsonToEndpoint (List.map endpointToJson xs) = some xs :=
  mapOpt_map_of _ _ _ (fun x _ => jsonToEndpoint_endpointToJson x)

/-- Serialization of Vec of u32 as a JSON array. -/
def u32ListToJson (xs : List U32) : Json := .arr (xs.map u32ToJson)

/-- Deserialization of Vec of u32. -/
def jsonToU32List : Json → Option (List U32)
  | .arr js => mapOpt jsonToU32 js
  | _ => none

/-- Serialization of Vec of u8 as a JSON array of numbers (serde derive
default for Vec of u8). -/
def u8ListToJson (xs : List U8) : Json := .arr (xs.map u8ToJson)

/-- Deserialization of Vec of u8. -/
def jsonToU8List : Json → Option (List U8)
  | .arr js => mapOpt jsonToU8 js
  | _ => none

/-- Serialization of Vec of Endpoint. -/
def endpointListToJson (xs : List Endpoint) : Json := .arr (xs.map endpointToJson)

/-- Deserialization of Vec of Endpoint. -/
def jsonToEndpointList : Json → Option (List Endpoint)
  | .arr js => mapOpt jsonToEndpoint js
  | _ => none

/-- Serialization of Vec of String. -/
def strListToJson (xs : List String) : Json := .arr (xs.map strToJson)

/-- Deserialization of Vec of String. -/
def jsonToStrList : Json → Option (List String)
  | .arr js => mapOpt jsonToStr js
  | _ => none

/-- Serialization of Vec of Vec of String. -/
def strListListToJson (xs : List (List String)) : Json :=
  .arr (xs.map strListToJson)

/-- Deserialization of Vec of Vec of String. -/
def jsonToStrListList : Json → Option (List (List String))
  | .arr js => mapOpt jsonToStrList js
  | _ => none

/-- Vec of u32 round-trips. -/
@[simp]
theorem jsonToU32List_rt (xs : List U32) :
    jsonToU32List (u32ListToJson xs) = some xs := by
  simp [u32ListToJson, jsonToU32List]

/-- Vec of u8 round-trips. -/
@[simp]
theorem jsonToU8List_rt (xs : List U8) :
    jsonToU8List (u8ListToJson xs) = some xs := by
  simp [u8ListToJson, jsonToU8List]

/-- Vec of Endpoint round-trips. -/
@[simp]
theorem jsonToEndpointList_rt (xs : List Endpoint) :
    jsonToEndpointList (endpointListToJson xs) = some xs := by
  simp [endpointListToJson, jsonToEndpointList]

/-- Vec of String round-trips. -/
@[simp]
theorem jsonToStrList_rt (xs : List String) :
    jsonToStrList (strListToJson xs) = some xs := by
  simp [strListToJson, jsonToStrList]

/-- Vec of Vec of String round-trips. -/
@[simp]
theorem jsonToStrListList_rt (xs : List (List String)) :
    jsonToStrListList (strListListToJson xs) = some xs := by
  simp [strListListToJson, jsonToStrListList]
  exact mapOpt_map_of _ _ _ (fun x _ => jsonToStrList_rt x)

/-- Option of u32 round-trips through a present field. -/
@[simp]
theorem jsonToOpt_u32_rt (o : Option U32) :
    jsonToOpt jsonToU32 (optToJson u32ToJson o) = some o := by
  cases o with
  | none => rfl
  | some n =>
    have h1 : jsonToOpt jsonToU32 (optToJson u32ToJson (some n))
        = (jsonToU32 (u32ToJson n)).map some := rfl
    rw [h1, jsonToU32_u32ToJson]
    rfl

/-- Option of Vec of u32 round-trips through a present field. -/
@[simp]
theorem jsonToOpt_u32List_rt (o : Option (List U32)) :
    jsonToOpt jsonToU32List (optToJson u32ListToJson o) = some o := by
  cases o with
  | none => rfl
  | some xs =>
    have h1 : jsonToOpt jsonToU32List (optToJson u32ListToJson (some xs))
        = (jsonToU32List (u32ListToJson xs)).map some := rfl
    rw [h1, jsonToU32List_rt]
    rfl

/-- Option of Vec of Endpoint round-trips through a present field. -/
@[simp]
theorem jsonToOpt_endpointList_rt (o : Option (List Endpoint)) :
    jsonToOpt jsonToEndpointList (optToJson endpointListToJson o) = some o := by
  cases o with
  | none => rfl
  | some xs =>
    have h1 : jsonToOpt jsonToEndpointList (optToJson endpointListToJson (some xs))
        = (jsonToEndpointList (endpointListToJson xs)).map some := rfl
    rw [h1, jsonToEndpointList_rt]
    rfl

/-- Option of Vec of String round-trips through a present field. -/
@[simp]
theorem jsonToOpt_strList_rt (o : Option (List String)) :
    jsonToOpt jsonToStrList (optToJson strListToJson o) = some o := by
  cases o with
  | none => rfl
  | some xs =>
    have h1 : jsonToOpt jsonToStrList (optToJson strListToJson (some xs))
        = (jsonToStrList (strListToJson xs)).map some := rfl
    rw [h1, jsonToStrList_rt]
    rfl

/-- Option of Vec of Vec of String round-trips through a present field. -/
@[simp]
theorem jsonToOpt_strListList_rt (o : Option (List (List String))) :
    jsonToOpt jsonToStrListList (optToJson strListListToJson o) = some o := by
  cases o with
  | none => rfl
  | some xs =>
    have h1 : jsonToOpt jsonToStrListList (optToJson strListListToJson (some xs))
        = (jsonToStrListList (strListListToJson xs)).map some := rfl
    rw [h1, jsonToStrListList_rt]
    rfl

/-- Struct Ok round-trips. -/
@[simp]
theorem roundtrip_Ok (x : Ok) : Ok.fromJson (Ok.toJson x) = some x := by
  cases x
  simp [Ok.toJson, Ok.fromJson, lookupField]

/-- Struct Error round-trips. -/
@[simp]
theorem roundtrip_Error (x : Error) : Error.fromJson (Error.toJson x) = some x := by
  cases x
  simp [Error.toJson, Error.fromJson, lookupField]

/-- Serde serialization of struct Ping. -/
def Ping.toJson (self : Ping) : Json :=
  .obj [("Id", u32ToJson self.id)]

/-- Serde deserialization of struct Ping. -/
def Ping.fromJson : Json → Option Ping
  | .obj fs => do
    let id ← (lookupField fs "Id").bind jsonToU32
    some ⟨id⟩
  | _ => none

/-- Struct Ping round-trips. -/
@[simp]
theorem roundtrip_Ping (x : Ping) : Ping.fromJson (Ping.toJson x) = some x := by
  cases x
  simp [Ping.toJson, Ping.fromJson, lookupField]

/-- Serde serialization of struct Test: fields Id, TestString. -/
def Test.toJson (self : Test) : Json :=
  .obj [("Id", u32ToJson self.id),
        ("TestString", strToJson self.test_string)]

/-- Serde deserialization of struct Test. -/
def Test.fromJson : Json → Option Test
  | .obj fs => do
    let id ← (lookupField fs "Id").bind jsonToU32
    let ts ← (lookupField fs "TestString").bind jsonToStr
    some ⟨id, ts⟩
  | _ => none

/-- Struct Test round-trips. -/
@[simp]
theorem roundtrip_Test (x : Test) : Test.fromJson (Test.toJson x) = some x := by
  cases x
  simp [Test.toJson, Test.fromJson, lookupField]

/-- Serde serialization of struct StartScanning. -/
def StartScanning.toJson (self : StartScanning) : Json :=
  .obj [("Id", u32ToJson self.id)]

/-- Serde deserialization of struct StartScanning. -/
def StartScanning.fromJson : Json → Option StartScanning
  | .obj fs => do
    let id ← (lookupField fs "Id").bind jsonToU32
    some ⟨id⟩
  | _ => none

/-- Struct StartScanning round-trips. -/
@[simp]
theorem roundtrip_StartScanning (x : StartScanning) :
    StartScanning.fromJson (StartScanning.toJson x) = some x := by
  cases x
  simp [StartScanning.toJson, StartScanning.fromJson, lookupField]

/-- Serde serialization of struct StopScanning. -/
def StopScanning.toJson (self : StopScanning) : Json :=
  .obj [("Id", u32ToJson self.id)]

/-- Serde deserialization of struct StopScanning. -/
def StopScanning.fromJson : Json → Option StopScanning
  | .obj fs => do
    let id ← (lookupField fs "Id").bind jsonToU32
    some ⟨id⟩
  | _ => none

/-- Struct StopScanning round-trips. -/
@[simp]
theorem roundtrip_StopScanning (x : StopScanning) :
    StopScanning.fromJson (StopScanning.toJson x) = some x := by
  cases x
  simp [StopScanning.toJson, StopScanning.fromJson, lookupField]

/-- Serde serialization of struct ScanningFinished. -/
def ScanningFinished.toJson (self : ScanningFinished) : Json :=
  .obj [("Id", u32ToJson self.id)]

/-- Serde deserialization of struct ScanningFinished. -/
def ScanningFinished.fromJson : Json → Option ScanningFinished
  | .obj fs => do
    let id ← (lookupField fs "Id").bind jsonToU32
    some ⟨id⟩
  | _ => none

/-- Struct ScanningFinished round-trips. -/
@[simp]
theorem roundtrip_ScanningFinished (x : ScanningFinished) :
    ScanningFinished.fromJson (ScanningFinished.toJson x) = some x := by
  cases x
  simp [ScanningFinished.toJson, ScanningFinished.fromJson, lookupField]

/-- Serde serialization of struct RequestDeviceList. -/
def RequestDeviceList.toJson (self : RequestDeviceList) : Json :=
  .obj [("Id", u32ToJson self.id)]

/-- Serde deserialization of struct RequestDeviceList. -/
def RequestDeviceList.fromJson : Json → Option RequestDeviceList
  | .obj fs => do
    let id ← (lookupField fs "Id").bind jsonToU32
    some ⟨id⟩
  | _ => none

/-- Struct RequestDeviceList round-trips. -/
@[simp]
theorem roundtrip_RequestDeviceList (x : RequestDeviceList) :
    RequestDeviceList.fromJson (RequestDeviceList.toJson x) = some x := by
  cases x
  simp [RequestDeviceList.toJson, RequestDeviceList.fromJson, lookupField]

/-- Serde serialization of struct RequestServerInfo: fields Id,
ClientName, MessageVersion. -/
def RequestServerInfo.toJson (self : RequestServerInfo) : Json :=
  .obj [("Id", u32ToJson self.id),
        ("ClientName", strToJson self.client_name),
        ("MessageVersion", u32ToJson self.message_version)]

/-- Serde deserialization of struct RequestServerInfo. -/
def RequestServerInfo.fromJson : Json → Option RequestServerInfo
  | .obj fs => do
    let id ← (lookupField fs "Id").bind jsonToU32
    let cn ← (lookupField fs "ClientName").bind jsonToStr
    let mv ← (lookupField fs "MessageVersion").bind jsonToU32
    some ⟨id, cn, mv⟩
  | _ => none

/-- Struct RequestServerInfo round-trips. -/
@[simp]
theorem roundtrip_RequestServerInfo (x : RequestServerInfo) :
    RequestServerInfo.fromJson (RequestServerInfo.toJson x) = some x := by
  cases x
  simp [RequestServerInfo.toJson, RequestServerInfo.fromJson, lookupField]

/-- Serde serialization of struct ServerInfo: fields Id, MajorVersion,
MinorVersion, BuildVersion, MessageVersion, MaxPingTime, ServerName. -/
def ServerInfo.toJson (self : ServerInfo) : Json :=
  .obj [("Id", u32ToJson self.id),
        ("MajorVersion", u32ToJson self.major_version),
        ("MinorVersion", u32ToJson self.minor_version),
        ("BuildVersion", u32ToJson self.build_version),
        ("MessageVersion", u32ToJson self.message_version),
        ("MaxPingTime", u32ToJson self.max_ping_time),
        ("ServerName", strToJson self.server_name)]

/-- Serde deserialization of struct ServerInfo. -/
def ServerInfo.fromJson : Json → Option ServerInfo
  | .obj fs => do
    let id ← (lookupField fs "Id").bind jsonToU32
    let ma ← (lookupField fs "MajorVersion").bind jsonToU32
    let mi ← (lookupField fs "MinorVersion").bind jsonToU32
    let bu ← (lookupField fs "BuildVersion").bind jsonToU32
    let mv ← (lookupField fs "MessageVersion").bind jsonToU32
    let mp ← (lookupField fs "MaxPingTime").bind jsonToU32
    let sn ← (lookupField fs "ServerName").bind jsonToStr
    some ⟨id, ma, mi, bu, mv, mp, sn⟩
  | _ => none

/-- Struct ServerInfo round-trips. -/
@[simp]
theorem roundtrip_ServerInfo (x : ServerInfo) :
    ServerInfo.fromJson (ServerInfo.toJson x) = some x := by
  cases x
  simp [ServerInfo.toJson, ServerInfo.fromJson, lookupField]

/-- Serde serialization of struct RequestLog: fields Id, LogLevel. -/
def RequestLog.toJson (self : RequestLog) : Json :=
  .obj [("Id", u32ToJson self.id),
        ("LogLevel", logLevelToJson self.log_level)]

/-- Serde deserialization of struct RequestLog. -/
def RequestLog.fromJson : Json → Option RequestLog
  | .obj fs => do
    let id ← (lookupField fs "Id").bind jsonToU32
    let ll ← (lookupField fs "LogLevel").bind jsonToLogLevel
    some ⟨id, ll⟩
  | _ => none

/-- Struct RequestLog round-trips. -/
@[simp]
theorem roundtrip_RequestLog (x : RequestLog) :
    RequestLog.fromJson (RequestLog.toJson x) = some x := by
  cases x
  simp [RequestLog.toJson, RequestLog.fromJson, lookupField]

/-- Serde serialization of struct Log: fields Id, LogLevel, LogMessage. -/
def Log.toJson (self : Log) : Json :=
  .obj [("Id", u32ToJson self.id),
        ("LogLevel", logLevelToJson self.log_level),
        ("LogMessage", strToJson self.log_message)]

/-- Serde deserialization of struct Log. -/
def Log.fromJson : Json → Option Log
  | .obj fs => do
    let id ← (lookupField fs "Id").bind jsonToU32
    let ll ← (lookupField fs "LogLevel").bind jsonToLogLevel
    let lm ← (lookupField fs "LogMessage").bind jsonToStr
    some ⟨id, ll, lm⟩
  | _ => none

/-- Struct Log round-trips. -/
@[simp]
theorem roundtrip_Log (x : Log) : Log.fromJson (Log.toJson x) = some x := by
  cases x
  simp [Log.toJson, Log.fromJson, lookupField]

/-- Serde serialization of struct StopDeviceCmd: fields Id, DeviceIndex. -/
def StopDeviceCmd.toJson (self : StopDeviceCmd) : Json :=
  .obj [("Id", u32ToJson self.id),
        ("DeviceIndex", u32ToJson self.device_index)]

/-- Serde deserialization of struct StopDeviceCmd. -/
def StopDeviceCmd.fromJson : Json → Option StopDeviceCmd
  | .obj fs => do
    let id ← (lookupField fs "Id").bind jsonToU32
    let di ← (lookupField fs "DeviceIndex").bind jsonToU32
    some ⟨id, di⟩
  | _ => none

/-- Struct StopDeviceCmd round-trips. -/
@[simp]
theorem roundtrip_StopDeviceCmd (x : StopDeviceCmd) :
    StopDeviceCmd.fromJson (StopDeviceCmd.toJson x) = some x := by
  cases x
  simp [StopDeviceCmd.toJson, StopDeviceCmd.fromJson, lookupField]

/-- Serde serialization of struct StopAllDevices. -/
def StopAllDevices.toJson (self : StopAllDevices) : Json :=
  .obj [("Id", u32ToJson self.id)]

/-- Serde deserialization of struct StopAllDevices. -/
def StopAllDevices.fromJson : Json → Option StopAllDevices
  | .obj fs => do
    let id ← (lookupField fs "Id").bind jsonToU32
    some ⟨id⟩
  | _ => none

/-- Struct StopAllDevices round-trips. -/
@[simp]
theorem roundtrip_StopAllDevices (x : StopAllDevices) :
    StopAllDevices.fromJson (StopAllDevices.toJson x) = some x := by
  cases x
  simp [StopAllDevices.toJson, StopAllDevices.fromJson, lookupField]

/-- Serde serialization of struct DeviceRemoved: fields Id, DeviceIndex. -/
def DeviceRemoved.toJson (self : DeviceRemoved) : Json :=
  .obj [("Id", u32ToJson self.id),
        ("DeviceIndex", u32ToJson self.device_index)]

/-- Serde deserialization of struct DeviceRemoved. -/
def DeviceRemoved.fromJson : Json → Option DeviceRemoved
  | .obj fs => do
    let id ← (lookupField fs "Id").bind jsonToU32
    let di ← (lookupField fs "DeviceIndex").bind jsonToU32
    some ⟨id, di⟩
  | _ => none

/-- Struct DeviceRemoved round-trips. -/
@[simp]
theorem roundtrip_DeviceRemoved (x : DeviceRemoved) :
    DeviceRemoved.fromJson (DeviceRemoved.toJson x) = some x := by
  cases x
  simp [DeviceRemoved.toJson, DeviceRemoved.fromJson, lookupField]

/-- Serde serialization of VibrateSubcommand: fields Index, Speed. -/
def VibrateSubcommand.toJson (self : VibrateSubcommand) : Json :=
  .obj [("Index", u32ToJson self.index),
        ("Speed", f64ToJson self.speed)]

/-- Serde deserialization of VibrateSubcommand. -/
def VibrateSubcommand.fromJson : Json → Option VibrateSubcommand
  | .obj fs => do
    let i ← (lookupField fs "Index").bind jsonToU32
    let sp ← (lookupField fs "Speed").bind jsonToF64
    some ⟨i, sp⟩
  | _ => none

/-- VibrateSubcommand round-trips when its speed is a finite double. -/
@[simp]
theorem roundtrip_VibrateSubcommand (x : VibrateSubcommand)
    (h : x.speed.isFinite = true) :
    VibrateSubcommand.fromJson (VibrateSubcommand.toJson x) = some x := by
  obtain ⟨i, sp⟩ := x
  simp only [VibrateSubcommand.speed] at h
  simp [VibrateSubcommand.toJson, VibrateSubcommand.fromJson, lookupField, h]

/-- Serde serialization of struct VibrateCmd: fields Id, DeviceIndex,
Speeds. -/
def VibrateCmd.toJson (self : VibrateCmd) : Json :=
  .obj [("Id", u32ToJson self.id),
        ("DeviceIndex", u32ToJson self.device_index),
        ("Speeds", .arr (self.speeds.map VibrateSubcommand.toJson))]

/-- Serde deserialization of struct VibrateCmd. -/
def VibrateCmd.fromJson : Json → Option VibrateCmd
  | .obj fs => do
    let id ← (lookupField fs "Id").bind jsonToU32
    let di ← (lookupField fs "DeviceIndex").bind jsonToU32
    let sj ← lookupField fs "Speeds"
    let sp ← match sj with
      | .arr js => mapOpt VibrateSubcommand.fromJson js
      | _ => none
    some ⟨id, di, sp⟩
  | _ => none

/-- All f64 speeds in a VibrateCmd are finite. -/
def VibrateCmd.allFinite (self : VibrateCmd) : Bool :=
  self.speeds.all (fun s => s.speed.isFinite)

/-- VibrateCmd round-trips when every speed is finite. -/
@[simp]
theorem roundtrip_VibrateCmd (x : VibrateCmd) (h : x.allFinite = true) :
    VibrateCmd.fromJson (VibrateCmd.toJson x) = some x := by
  obtain ⟨id, di, sp⟩ := x
  simp only [VibrateCmd.allFinite, VibrateCmd.speeds, List.all_eq_true] at h
  have hs : mapOpt VibrateSubcommand.fromJson (sp.map VibrateSubcommand.toJson)
      = some sp :=
    mapOpt_map_of _ _ _ (fun s hx => roundtrip_VibrateSubcommand s (h s hx))
  simp [VibrateCmd.toJson, VibrateCmd.fromJson, lookupField, hs]

/-- Serde serialization of VectorSubcommand: fields Index, Duration,
Position. -/
def VectorSubcommand.toJson (self : VectorSubcommand) : Json :=
  .obj [("Index", u32ToJson self.index),
        ("Duration", u32ToJson self.duration),
        ("Position", f64ToJson self.position)]

/-- Serde deserialization of VectorSubcommand. -/
def VectorSubcommand.fromJson : Json → Option VectorSubcommand
  | .obj fs => do
    let i ← (lookupField fs "Index").bind jsonToU32
    let du ← (lookupField fs "Duration").bind jsonToU32
    let po ← (lookupField fs "Position").bind jsonToF64
    some ⟨i, du, po⟩
  | _ => none

/-- VectorSubcommand round-trips when its position is a finite double. -/
@[simp]
theorem roundtrip_VectorSubcommand (x : VectorSubcommand)
    (h : x.position.isFinite = true) :
    VectorSubcommand.fromJson (VectorSubcommand.toJson x) = some x := by
  obtain ⟨i, du, po⟩ := x
  simp only [VectorSubcommand.position] at h
  simp [VectorSubcommand.toJson, VectorSubcommand.fromJson, lookupField, h]

/-- Serde serialization of struct LinearCmd: fields Id, DeviceIndex,
Vectors. -/
def LinearCmd.toJson (self : LinearCmd) : Json :=
  .obj [("Id", u32ToJson self.id),
        ("DeviceIndex", u32ToJson self.device_index),
        ("Vectors", .arr (self.vectors.map VectorSubcommand.toJson))]

/-- Serde deserialization of struct LinearCmd. -/
def LinearCmd.fromJson : Json → Option LinearCmd
  | .obj fs => do
    let id ← (lookupField fs "Id").bind jsonToU32
    let di ← (lookupField fs "DeviceIndex").bind jsonToU32
    let vj ← lookupField fs "Vectors"
    let ve ← match vj with
      | .arr js => mapOpt VectorSubcommand.fromJson js
      | _ => none
    some ⟨id, di, ve⟩
  | _ => none

/-- All f64 positions in a LinearCmd are finite. -/
def LinearCmd.allFinite (self : LinearCmd) : Bool :=
  self.vectors.all (fun v => v.position.isFinite)

/-- LinearCmd round-trips when every position is finite. -/
@[simp]
theorem roundtrip_LinearCmd (x : LinearCmd) (h : x.allFinite = true) :
    LinearCmd.fromJson (LinearCmd.toJson x) = some x := by
  obtain ⟨id, di, ve⟩ := x
  simp only [LinearCmd.allFinite, LinearCmd.vectors, List.all_eq_true] at h
  have hs : mapOpt VectorSubcommand.fromJson (ve.map VectorSubcommand.toJson)
      = some ve :=
    mapOpt_map_of _ _ _ (fun v hx => roundtrip_VectorSubcommand v (h v hx))
  simp [LinearCmd.toJson, LinearCmd.fromJson, lookupField, hs]

/-- Serde serialization of RotationSubcommand: fields Index, Speed,
Clockwise. -/
def RotationSubcommand.toJson (self : RotationSubcommand) : Json :=
  .obj [("Index", u32ToJson self.index),
        ("Speed", f64ToJson self.speed),
        ("Clockwise", boolToJson self.clockwise)]

/-- Serde deserialization of RotationSubcommand. -/
def RotationSubcommand.fromJson : Json → Option RotationSubcommand
  | .obj fs => do
    let i ← (lookupField fs "Index").bind jsonToU32
    let sp ← (lookupField fs "Speed").bind jsonToF64
    let cw ← (lookupField fs "Clockwise").bind jsonToBool
    some ⟨i, sp, cw⟩
  | _ => none

/-- RotationSubcommand round-trips when its speed is a finite double. -/
@[simp]
theorem roundtrip_RotationSubcommand (x : RotationSubcommand)
    (h : x.speed.isFinite = true) :
    RotationSubcommand.fromJson (RotationSubcommand.toJson x) = some x := by
  obtain ⟨i, sp, cw⟩ := x
  simp only [RotationSubcommand.speed] at h
  simp [RotationSubcommand.toJson, RotationSubcommand.fromJson, lookupField, h]

/-- Serde serialization of struct RotateCmd: fields Id, DeviceIndex,
Rotations. -/
def RotateCmd.toJson (self : RotateCmd) : Json :=
  .obj [("Id", u32ToJson self.id),
        ("DeviceIndex", u32ToJson self.device_index),
        ("Rotations", .arr (self.rotations.map RotationSubcommand.toJson))]

/-- Serde deserialization of struct RotateCmd. -/
def RotateCmd.fromJson : Json → Option RotateCmd
  | .obj fs => do
    let id ← (lookupField fs "Id").bind jsonToU32
    let di ← (lookupField fs "DeviceIndex").bind jsonToU32
    let rj ← lookupField fs "Rotations"
    let ro ← match rj with
      | .arr js => mapOpt RotationSubcommand.fromJson js
      | _ => none
    some ⟨id, di, ro⟩
  | _ => none

/-- All f64 speeds in a RotateCmd are finite. -/
def RotateCmd.allFinite (self : RotateCmd) : Bool :=
  self.rotations.all (fun r => r.speed.isFinite)

/-- RotateCmd round-trips when every speed is finite. -/
@[simp]
theorem roundtrip_RotateCmd (x : RotateCmd) (h : x.allFinite = true) :
    RotateCmd.fromJson (RotateCmd.toJson x) = some x := by
  obtain ⟨id, di, ro⟩ := x
  simp only [RotateCmd.allFinite, RotateCmd.rotations, List.all_eq_true] at h
  have hs : mapOpt RotationSubcommand.fromJson (ro.map RotationSubcommand.toJson)
      = some ro :=
    mapOpt_map_of _ _ _ (fun r hx => roundtrip_RotationSubcommand r (h r hx))
  simp [RotateCmd.toJson, RotateCmd.fromJson, lookupField, hs]

/-- Serde serialization of struct FleshlightLaunchFW12Cmd: fields Id,
DeviceIndex, Position, Speed. -/
def FleshlightLaunchFW12Cmd.toJson (self : FleshlightLaunchFW12Cmd) : Json :=
  .obj [("Id", u32ToJson self.id),
        ("DeviceIndex", u32ToJson self.device_index),
        ("Position", u8ToJson self.position),
        ("Speed", u8ToJson self.speed)]

/-- Serde deserialization of struct FleshlightLaunchFW12Cmd. -/
def FleshlightLaunchFW12Cmd.fromJson : Json → Option FleshlightLaunchFW12Cmd
  | .obj fs => do
    let id ← (lookupField fs "Id").bind jsonToU32
    let di ← (lookupField fs "DeviceIndex").bind jsonToU32
    let po ← (lookupField fs "Position").bind jsonToU8
    let sp ← (lookupField fs "Speed").bind jsonToU8
    some ⟨id, di, po, sp⟩
  | _ => none

/-- Struct FleshlightLaunchFW12Cmd round-trips. -/
@[simp]
theorem roundtrip_FleshlightLaunchFW12Cmd (x : FleshlightLaunchFW12Cmd) :
    FleshlightLaunchFW12Cmd.fromJson (FleshlightLaunchFW12Cmd.toJson x) = some x := by
  cases x
  simp [FleshlightLaunchFW12Cmd.toJson, FleshlightLaunchFW12Cmd.fromJson,
    lookupField]

/-- Serde serialization of struct LovenseCmd: fields Id, DeviceIndex,
Command. -/
def LovenseCmd.toJson (self : LovenseCmd) : Json :=
  .obj [("Id", u32ToJson self.id),
        ("DeviceIndex", u32ToJson self.device_index),
        ("Command", strToJson self.command)]

/-- Serde deserialization of struct LovenseCmd. -/
def LovenseCmd.fromJson : Json → Option LovenseCmd
  | .obj fs => do
    let id ← (lookupField fs "Id").bind jsonToU32
    let di ← (lookupField fs "DeviceIndex").bind jsonToU32
    let co ← (lookupField fs "Command").bind jsonToStr
    some ⟨id, di, co⟩
  | _ => none

/-- Struct LovenseCmd round-trips. -/
@[simp]
theorem roundtrip_LovenseCmd (x : LovenseCmd) :
    LovenseCmd.fromJson (LovenseCmd.toJson x) = some x := by
  cases x
  simp [LovenseCmd.toJson, LovenseCmd.fromJson, lookupField]

/-- Serde serialization of struct KiirooCmd: fields Id, DeviceIndex,
Command. -/
def KiirooCmd.toJson (self : KiirooCmd) : Json :=
  .obj [("Id", u32ToJson self.id),
        ("DeviceIndex", u32ToJson self.device_index),
        ("Command", strToJson self.command)]

/-- Serde deserialization of struct KiirooCmd. -/
def KiirooCmd.fromJson : Json → Option KiirooCmd
  | .obj fs => do
    let id ← (lookupField fs "Id").bind jsonToU32
    let di ← (lookupField fs "DeviceIndex").bind jsonToU32
    let co ← (lookupField fs "Command").bind jsonToStr
    some ⟨id, di, co⟩
  | _ => none

/-- Struct KiirooCmd round-trips. -/
@[simp]
theorem roundtrip_KiirooCmd (x : KiirooCmd) :
    KiirooCmd.fromJson (KiirooCmd.toJson x) = some x := by
  cases x
  simp [KiirooCmd.toJson, KiirooCmd.fromJson, lookupField]

/-- Serde serialization of struct VorzeA10CycloneCmd: fields Id,
DeviceIndex, Speed, Clockwise. -/
def VorzeA10CycloneCmd.toJson (self : VorzeA10CycloneCmd) : Json :=
  .obj [("Id", u32ToJson self.id),
        ("DeviceIndex", u32ToJson self.device_index),
        ("Speed", u32ToJson self.speed),
        ("Clockwise", boolToJson self.clockwise)]

/-- Serde deserialization of struct VorzeA10CycloneCmd. -/
def VorzeA10CycloneCmd.fromJson : Json → Option VorzeA10CycloneCmd
  | .obj fs => do
    let id ← (lookupField fs "Id").bind jsonToU32
    let di ← (lookupField fs "DeviceIndex").bind jsonToU32
    let sp ← (lookupField fs "Speed").bind jsonToU32
    let cw ← (lookupField fs "Clockwise").bind jsonToBool
    some ⟨id, di, sp, cw⟩
  | _ => none

/-- Struct VorzeA10CycloneCmd round-trips. -/
@[simp]
theorem roundtrip_VorzeA10CycloneCmd (x : VorzeA10CycloneCmd) :
    VorzeA10CycloneCmd.fromJson (VorzeA10CycloneCmd.toJson x) = some x := by
  cases x
  simp [VorzeA10CycloneCmd.toJson, VorzeA10CycloneCmd.fromJson, lookupField]

/-- Serde serialization of struct SingleMotorVibrateCmd: fields Id,
DeviceIndex, Speed. -/
def SingleMotorVibrateCmd.toJson (self : SingleMotorVibrateCmd) : Json :=
  .obj [("Id", u32ToJson self.id),
        ("DeviceIndex", u32ToJson self.device_index),
        ("Speed", f64ToJson self.speed)]

/-- Serde deserialization of struct SingleMotorVibrateCmd. -/
def SingleMotorVibrateCmd.fromJson : Json → Option SingleMotorVibrateCmd
  | .obj fs => do
    let id ← (lookupField fs "Id").bind jsonToU32
    let di ← (lookupField fs "DeviceIndex").bind jsonToU32
    let sp ← (lookupField fs "Speed").bind jsonToF64
    some ⟨id, di, sp⟩
  | _ => none

/-- SingleMotorVibrateCmd round-trips when its speed is finite. -/
@[simp]
theorem roundtrip_SingleMotorVibrateCmd (x : SingleMotorVibrateCmd)
    (h : x.speed.isFinite = true) :
    SingleMotorVibrateCmd.fromJson (SingleMotorVibrateCmd.toJson x) = some x := by
  obtain ⟨id, di, sp⟩ := x
  simp only [SingleMotorVibrateCmd.speed] at h
  simp [SingleMotorVibrateCmd.toJson, SingleMotorVibrateCmd.fromJson,
    lookupField, h]

/-- Serde serialization of struct RawWriteCmd: fields Id, DeviceIndex,
Endpoint, Data, WriteWithResponse. -/
def RawWriteCmd.toJson (self : RawWriteCmd) : Json :=
  .obj [("Id", u32ToJson self.id),
        ("DeviceIndex", u32ToJson self.device_index),
        ("Endpoint", endpointToJson self.endpoint),
        ("Data", u8ListToJson self.data),
        ("WriteWithResponse", boolToJson self.write_with_response)]

/-- Serde deserialization of struct RawWriteCmd. -/
def RawWriteCmd.fromJson : Json → Option RawWriteCmd
  | .obj fs => do
    let id ← (lookupField fs "Id").bind jsonToU32
    let di ← (lookupField fs "DeviceIndex").bind jsonToU32
    let ep ← (lookupField fs "Endpoint").bind jsonToEndpoint
    let da ← (lookupField fs "Data").bind jsonToU8List
    let wr ← (lookupField fs "WriteWithResponse").bind jsonToBool
    some ⟨id, di, ep, da, wr⟩
  | _ => none

/-- Struct RawWriteCmd round-trips. -/
@[simp]
theorem roundtrip_RawWriteCmd (x : RawWriteCmd) :
    RawWriteCmd.fromJson (RawWriteCmd.toJson x) = some x := by
  cases x
  simp [RawWriteCmd.toJson, RawWriteCmd.fromJson, lookupField]

/-- Serde serialization of struct RawReadCmd: fields Id, DeviceIndex,
Endpoint, ExpectedLength, WaitForData. -/
def RawReadCmd.toJson (self : RawReadCmd) : Json :=
  .obj [("Id", u32ToJson self.id),
        ("DeviceIndex", u32ToJson self.device_index),
        ("Endpoint", endpointToJson self.endpoint),
        ("ExpectedLength", u32ToJson self.expected_length),
        ("WaitForData", boolToJson self.wait_for_data)]

/-- Serde deserialization of struct RawReadCmd. -/
def RawReadCmd.fromJson : Json → Option RawReadCmd
  | .obj fs => do
    let id ← (lookupField fs "Id").bind jsonToU32
    let di ← (lookupField fs "DeviceIndex").bind jsonToU32
    let ep ← (lookupField fs "Endpoint").bind jsonToEndpoint
    let el ← (lookupField fs "ExpectedLength").bind jsonToU32
    let wa ← (lookupField fs "WaitForData").bind jsonToBool
    some ⟨id, di, ep, el, wa⟩
  | _ => none

/-- Struct RawReadCmd round-trips. -/
@[simp]
theorem roundtrip_RawReadCmd (x : RawReadCmd) :
    RawReadCmd.fromJson (RawReadCmd.toJson x) = some x := by
  cases x
  simp [RawReadCmd.toJson, RawReadCmd.fromJson, lookupField]

/-- Serde serialization of struct RawReading: fields Id, DeviceIndex,
Endpoint, Data. -/
def RawReading.toJson (self : RawReading) : Json :=
  .obj [("Id", u32ToJson self.id),
        ("DeviceIndex", u32ToJson self.device_index),
        ("Endpoint", endpointToJson self.endpoint),
        ("Data", u8ListToJson self.data)]

/-- Serde deserialization of struct RawReading. -/
def RawReading.fromJson : Json → Option RawReading
  | .obj fs => do
    let id ← (lookupField fs "Id").bind jsonToU32
    let di ← (lookupField fs "DeviceIndex").bind jsonToU32
    let ep ← (lookupField fs "Endpoint").bind jsonToEndpoint
    let da ← (lookupField fs "Data").bind jsonToU8List
    some ⟨id, di, ep, da⟩
  | _ => none

/-- Struct RawReading round-trips. -/
@[simp]
theorem roundtrip_RawReading (x : RawReading) :
    RawReading.fromJson (RawReading.toJson x) = some x := by
  cases x
  simp [RawReading.toJson, RawReading.fromJson, lookupField]

/-- Serde serialization of MessageAttributes: six optional fields,
FeatureCount, StepCount, Endpoints, MaxDuration, Patterns, ActuatorType;
None serializes as null. -/
def MessageAttributes.toJson (self : MessageAttributes) : Json :=
  .obj [("FeatureCount", optToJson u32ToJson self.feature_count),
        ("StepCount", optToJson u32ListToJson self.step_count),
        ("Endpoints", optToJson endpointListToJson self.endpoints),
        ("MaxDuration", optToJson u32ListToJson self.max_duration),
        ("Patterns", optToJson strListListToJson self.patterns),
        ("ActuatorType", optToJson strListToJson self.actuator_type)]

/-- Serde deserialization of MessageAttributes: a missing or null Option
field is None. -/
def MessageAttributes.fromJson : Json → Option MessageAttributes
  | .obj fs => do
    let fc ← getOptField fs "FeatureCount" jsonToU32
    let sc ← getOptField fs "StepCount" jsonToU32List
    let ep ← getOptField fs "Endpoints" jsonToEndpointList
    let md ← getOptField fs "MaxDuration" jsonToU32List
    let pa ← getOptField fs "Patterns" jsonToStrListList
    let at2 ← getOptField fs "ActuatorType" jsonToStrList
    some ⟨fc, sc, ep, md, pa, at2⟩
  | _ => none

/-- Struct MessageAttributes round-trips. -/
@[simp]
theorem roundtrip_MessageAttributes (x : MessageAttributes) :
    MessageAttributes.fromJson (MessageAttributes.toJson x) = some x := by
  cases x
  simp [MessageAttributes.toJson, MessageAttributes.fromJson, getOptField,
    lookupField]

/-- Serialization of the device_messages map (HashMap<String,
MessageAttributes>): a JSON object with one field per entry. -/
def msgMapToJson (m : List (String × MessageAttributes)) : Json :=
  .obj (m.map (fun p => (p.1, MessageAttributes.toJson p.2)))

/-- Deserialization of the device_messages map. -/
def jsonToMsgMap : Json → Option (List (String × MessageAttributes))
  | .obj fs =>
    mapOpt (fun p => (MessageAttributes.fromJson p.2).map (fun a => (p.1, a))) fs
  | _ => none

/-- The device_messages map round-trips. -/
@[simp]
theorem jsonToMsgMap_rt (m : List (String × MessageAttributes)) :
    jsonToMsgMap (msgMapToJson m) = some m := by
  simp only [msgMapToJson, jsonToMsgMap]
  exact mapOpt_map_of _ _ _ (fun p _ => by simp)

/-- Serde serialization of DeviceMessageInfo: fields DeviceIndex,
DeviceName, DeviceMessages. -/
def DeviceMessageInfo.toJson (self : DeviceMessageInfo) : Json :=
  .obj [("DeviceIndex", u32ToJson self.device_index),
        ("DeviceName", strToJson self.device_name),
        ("DeviceMessages", msgMapToJson self.device_messages)]

/-- Serde deserialization of DeviceMessageInfo. -/
def DeviceMessageInfo.fromJson : Json → Option DeviceMessageInfo
  | .obj fs => do
    let di ← (lookupField fs "DeviceIndex").bind jsonToU32
    let dn ← (lookupField fs "DeviceName").bind jsonToStr
    let dm ← (lookupField fs "DeviceMessages").bind jsonToMsgMap
    some ⟨di, dn, dm⟩
  | _ => none

/-- Struct DeviceMessageInfo round-trips. -/
@[simp]
theorem roundtrip_DeviceMessageInfo (x : DeviceMessageInfo) :
    DeviceMessageInfo.fromJson (DeviceMessageInfo.toJson x) = some x := by
  cases x
  simp [DeviceMessageInfo.toJson, DeviceMessageInfo.fromJson, lookupField]

/-- Serde serialization of struct DeviceList: fields Id, Devices. -/
def DeviceList.toJson (self : DeviceList) : Json :=
  .obj [("Id", u32ToJson self.id),
        ("Devices", .arr (self.devices.map DeviceMessageInfo.toJson))]

/-- Serde deserialization of struct DeviceList. -/
def DeviceList.fromJson : Json → Option DeviceList
  | .obj fs => do
    let id ← (lookupField fs "Id").bind jsonToU32
    let dj ← lookupField fs "Devices"
    let de ← match dj with
      | .arr js => mapOpt DeviceMessageInfo.fromJson js
      | _ => none
    some ⟨id, de⟩
  | _ => none

/-- Struct DeviceList round-trips. -/
@[simp]
theorem roundtrip_DeviceList (x : DeviceList) :
    DeviceList.fromJson (DeviceList.toJson x) = some x := by
  obtain ⟨id, de⟩ := x
  have hs : mapOpt DeviceMessageInfo.fromJson (de.map DeviceMessageInfo.toJson)
      = some de :=
    mapOpt_map_of _ _ _ (fun d _ => roundtrip_DeviceMessageInfo d)
  simp [DeviceList.toJson, DeviceList.fromJson, lookupField, hs]

/-- Serde serialization of struct DeviceAdded: fields Id, DeviceIndex,
DeviceName, DeviceMessages. -/
def DeviceAdded.toJson (self : DeviceAdded) : Json :=
  .obj [("Id", u32ToJson self.id),
        ("DeviceIndex", u32ToJson self.device_index),
        ("DeviceName", strToJson self.device_name),
        ("DeviceMessages", msgMapToJson self.device_messages)]

/-- Serde deserialization of struct DeviceAdded. -/
def DeviceAdded.fromJson : Json → Option DeviceAdded
  | .obj fs => do
    let id ← (lookupField fs "Id").bind jsonToU32
    let di ← (lookupField fs "DeviceIndex").bind jsonToU32
    let dn ← (lookupField fs "DeviceName").bind jsonToStr
    let dm ← (lookupField fs "DeviceMessages").bind jsonToMsgMap
    some ⟨id, di, dn, dm⟩
  | _ => none

/-- Struct DeviceAdded round-trips. -/
@[simp]
theorem roundtrip_DeviceAdded (x : DeviceAdded) :
    DeviceAdded.fromJson (DeviceAdded.toJson x) = some x := by
  cases x
  simp [DeviceAdded.toJson, DeviceAdded.fromJson, lookupField]

/-- Serde serialization of the externally tagged enum
ButtplugMessageUnion: a single-key object whose key is the variant name
and whose value is the wrapped struct's serialization. -/
def ButtplugMessageUnion.toJson : ButtplugMessageUnion → Json
  | .Ok msg => .obj [("Ok", msg.toJson)]
  | .Error msg => .obj [("Error", msg.toJson)]
  | .Ping msg => .obj [("Ping", msg.toJson)]
  | .Test msg => .obj [("Test", msg.toJson)]
  | .RequestLog msg => .obj [("RequestLog", msg.toJson)]
  | .Log msg => .obj [("Log", msg.toJson)]
  | .RequestServerInfo msg => .obj [("RequestServerInfo", msg.toJson)]
  | .ServerInfo msg => .obj [("ServerInfo", msg.toJson)]
  | .DeviceList msg => .obj [("DeviceList", msg.toJson)]
  | .DeviceAdded msg => .obj [("DeviceAdded", msg.toJson)]
  | .DeviceRemoved msg => .obj [("DeviceRemoved", msg.toJson)]
  | .StartScanning msg => .obj [("StartScanning", msg.toJson)]
  | .StopScanning msg => .obj [("StopScanning", msg.toJson)]
  | .ScanningFinished msg => .obj [("ScanningFinished", msg.toJson)]
  | .RequestDeviceList msg => .obj [("RequestDeviceList", msg.toJson)]
  | .VibrateCmd msg => .obj [("VibrateCmd", msg.toJson)]
  | .LinearCmd msg => .obj [("LinearCmd", msg.toJson)]
  | .RotateCmd msg => .obj [("RotateCmd", msg.toJson)]
  | .FleshlightLaunchFW12Cmd msg => .obj [("FleshlightLaunchFW12Cmd", msg.toJson)]
  | .LovenseCmd msg => .obj [("LovenseCmd", msg.toJson)]
  | .KiirooCmd msg => .obj [("KiirooCmd", msg.toJson)]
  | .VorzeA10CycloneCmd msg => .obj [("VorzeA10CycloneCmd", msg.toJson)]
  | .SingleMotorVibrateCmd msg => .obj [("SingleMotorVibrateCmd", msg.toJson)]
  | .RawWriteCmd msg => .obj [("RawWriteCmd", msg.toJson)]
  | .RawReadCmd msg => .obj [("RawReadCmd", msg.toJson)]
  | .RawReading msg => .obj [("RawReading", msg.toJson)]
  | .StopDeviceCmd msg => .obj [("StopDeviceCmd", msg.toJson)]
  | .StopAllDevices msg => .obj [("StopAllDevices", msg.toJson)]

/-- Serde deserialization of ButtplugMessageUnion: expects a single-key
object whose key selects the variant. -/
def ButtplugMessageUnion.fromJson : Json → Option ButtplugMessageUnion
  | .obj [(tag, payload)] =>
    if tag = "Ok" then (Ok.fromJson payload).map ButtplugMessageUnion.Ok
    else if tag = "Error" then (Error.fromJson payload).map ButtplugMessageUnion.Error
    else if tag = "Ping" then (Ping.fromJson payload).map ButtplugMessageUnion.Ping
    else if tag = "Test" then (Test.fromJson payload).map ButtplugMessageUnion.Test
    else if tag = "RequestLog" then (RequestLog.fromJson payload).map ButtplugMessageUnion.RequestLog
    else if tag = "Log" then (Log.fromJson payload).map ButtplugMessageUnion.Log
    else if tag = "RequestServerInfo" then (RequestServerInfo.fromJson payload).map ButtplugMessageUnion.RequestServerInfo
    else if tag = "ServerInfo" then (ServerInfo.fromJson payload).map ButtplugMessageUnion.ServerInfo
    else if tag = "DeviceList" then (DeviceList.fromJson payload).map ButtplugMessageUnion.DeviceList
    else if tag = "DeviceAdded" then (DeviceAdded.fromJson payload).map ButtplugMessageUnion.DeviceAdded
    else if tag = "DeviceRemoved" then (DeviceRemoved.fromJson payload).map ButtplugMessageUnion.DeviceRemoved
    else if tag = "StartScanning" then (StartScanning.fromJson payload).map ButtplugMessageUnion.StartScanning
    else if tag = "StopScanning" then (StopScanning.fromJson payload).map ButtplugMessageUnion.StopScanning
    else if tag = "ScanningFinished" then (ScanningFinished.fromJson payload).map ButtplugMessageUnion.ScanningFinished
    else if tag = "RequestDeviceList" then (RequestDeviceList.fromJson payload).map ButtplugMessageUnion.RequestDeviceList
    else if tag = "VibrateCmd" then (VibrateCmd.fromJson payload).map ButtplugMessageUnion.VibrateCmd
    else if tag = "LinearCmd" then (LinearCmd.fromJson payload).map ButtplugMessageUnion.LinearCmd
    else if tag = "RotateCmd" then (RotateCmd.fromJson payload).map ButtplugMessageUnion.RotateCmd
    else if tag = "FleshlightLaunchFW12Cmd" then (FleshlightLaunchFW12Cmd.fromJson payload).map ButtplugMessageUnion.FleshlightLaunchFW12Cmd
    else if tag = "LovenseCmd" then (LovenseCmd.fromJson payload).map ButtplugMessageUnion.LovenseCmd
    else if tag = "KiirooCmd" then (KiirooCmd.fromJson payload).map ButtplugMessageUnion.KiirooCmd
    else if tag = "VorzeA10CycloneCmd" then (VorzeA10CycloneCmd.fromJson payload).map ButtplugMessageUnion.VorzeA10CycloneCmd
    else if tag = "SingleMotorVibrateCmd" then (SingleMotorVibrateCmd.fromJson payload).map ButtplugMessageUnion.SingleMotorVibrateCmd
    else if tag = "RawWriteCmd" then (RawWriteCmd.fromJson payload).map ButtplugMessageUnion.RawWriteCmd
    else if tag = "RawReadCmd" then (RawReadCmd.fromJson payload).map ButtplugMessageUnion.RawReadCmd
    else if tag = "RawReading" then (RawReading.fromJson payload).map ButtplugMessageUnion.RawReading
    else if tag = "StopDeviceCmd" then (StopDeviceCmd.fromJson payload).map ButtplugMessageUnion.StopDeviceCmd
    else if tag = "StopAllDevices" then (StopAllDevices.fromJson payload).map ButtplugMessageUnion.StopAllDevices
    else none
  | _ => none

/-- Every f64 field reachable from the union value is a finite double.
Rust's type system imposes no such restriction, but serde_json writes a
non-finite double as null, which no longer deserializes. -/
def ButtplugMessageUnion.allFinite : ButtplugMessageUnion → Bool
  | .VibrateCmd msg => msg.allFinite
  | .LinearCmd msg => msg.allFinite
  | .RotateCmd msg => msg.allFinite
  | .SingleMotorVibrateCmd msg => msg.speed.isFinite
  | _ => true

/-- The serde tag (variant name) of a union value: the single key of its
serialized object. -/
def ButtplugMessageUnion.variantTag : ButtplugMessageUnion → String
  | .Ok _ => "Ok"
  | .Error _ => "Error"
  | .Ping _ => "Ping"
  | .Test _ => "Test"
  | .RequestLog _ => "RequestLog"
  | .Log _ => "Log"
  | .RequestServerInfo _ => "RequestServerInfo"
  | .ServerInfo _ => "ServerInfo"
  | .DeviceList _ => "DeviceList"
  | .DeviceAdded _ => "DeviceAdded"
  | .DeviceRemoved _ => "DeviceRemoved"
  | .StartScanning _ => "StartScanning"
  | .StopScanning _ => "StopScanning"
  | .ScanningFinished _ => "ScanningFinished"
  | .RequestDeviceList _ => "RequestDeviceList"
  | .VibrateCmd _ => "VibrateCmd"
  | .LinearCmd _ => "LinearCmd"
  | .RotateCmd _ => "RotateCmd"
  | .FleshlightLaunchFW12Cmd _ => "FleshlightLaunchFW12Cmd"
  | .LovenseCmd _ => "LovenseCmd"
  | .KiirooCmd _ => "KiirooCmd"
  | .VorzeA10CycloneCmd _ => "VorzeA10CycloneCmd"
  | .SingleMotorVibrateCmd _ => "SingleMotorVibrateCmd"
  | .RawWriteCmd _ => "RawWriteCmd"
  | .RawReadCmd _ => "RawReadCmd"
  | .RawReading _ => "RawReading"
  | .StopDeviceCmd _ => "StopDeviceCmd"
  | .StopAllDevices _ => "StopAllDevices"

/-- One canonical value per constructor of ButtplugMessageUnion, in
declaration order; its length is the number of variants of the closed
union. -/
def unionExemplars : List ButtplugMessageUnion :=
  [.Ok ⟨0⟩,
   .Error ⟨0, .ErrorUnknown, ""⟩,
   .Ping ⟨1⟩,
   .Test ⟨0, ""⟩,
   .RequestLog ⟨1, .Off⟩,
   .Log ⟨0, .Off, ""⟩,
   .RequestServerInfo ⟨0, "", 0⟩,
   .ServerInfo ⟨0, 0, 0, 0, 0, 0, ""⟩,
   .DeviceList ⟨0, []⟩,
   .DeviceAdded ⟨0, 0, "", []⟩,
   .DeviceRemoved ⟨0, 0⟩,
   .StartScanning ⟨1⟩,
   .StopScanning ⟨1⟩,
   .ScanningFinished ⟨0⟩,
   .RequestDeviceList ⟨1⟩,
   .VibrateCmd ⟨0, 0, []⟩,
   .LinearCmd ⟨0, 0, []⟩,
   .RotateCmd ⟨0, 0, []⟩,
   .FleshlightLaunchFW12Cmd ⟨0, 0, 0, 0⟩,
   .LovenseCmd ⟨1, 0, ""⟩,
   .KiirooCmd ⟨1, 0, ""⟩,
   .VorzeA10CycloneCmd ⟨0, 0, 0, false⟩,
   .SingleMotorVibrateCmd ⟨0, 0, F64.zero⟩,
   .RawWriteCmd ⟨1, 0, .tx, [], false⟩,
   .RawReadCmd ⟨1, 0, .tx, 0, false⟩,
   .RawReading ⟨1, 0, .tx, []⟩,
   .StopDeviceCmd ⟨0, 0⟩,
   .StopAllDevices ⟨0⟩]

/-- Every union value's tag occurs in the tag list of the exemplars: the
exemplars exhibit one value per constructor, no more and no fewer. -/
theorem variantTag_mem (m : ButtplugMessageUnion) :
    m.variantTag ∈ unionExemplars.map ButtplugMessageUnion.variantTag := by
  cases m <;> simp [ButtplugMessageUnion.variantTag, unionExemplars]

/-- The serde variant-name tag written for each LogLevel value. -/
def LogLevel.variantName : LogLevel → String
  | .Off => "Off"
  | .Fatal => "Fatal"
  | .Error => "Error"
  | .Warn => "Warn"
  | .Info => "Info"
  | .Debug => "Debug"
  | .Trace => "Trace"

/-- C1: code-bug evidence for the ID-echo contract.  The stop-device and
rotate handlers reply Ok echoing the incoming command's id, but the
vibrate handler shadows the incoming message with the freshly built
RawWriteCmd (whose id is 1), so a VibrateCmd with request id 7 is
answered with Ok id 1 instead of 7. -/
theorem lovense_reply_id_echo_code_bug :
    (∀ (p : LovenseProtocol) (msg : StopDeviceCmd),
        (p.parse_message (.StopDeviceCmd msg)).2.1 = .ok (.Ok ⟨msg.id⟩))
  ∧ (∀ (p : LovenseProtocol) (msg : RotateCmd),
        (p.parse_message (.RotateCmd msg)).2.1 = .ok (.Ok ⟨msg.id⟩))
  ∧ (LovenseProtocol.parse_message ⟨0, 0⟩ (.VibrateCmd ⟨7, 0, []⟩)).2.1
        = .ok (.Ok ⟨1⟩) :=
  ⟨fun _ _ => rfl, fun _ _ => rfl, rfl⟩

/-- C2 (amended): serialize-then-deserialize is the identity on every
union value all of whose f64 fields are finite doubles. -/
theorem union_serde_roundtrip_on_finite (m : ButtplugMessageUnion)
    (h : m.allFinite = true) :
    ButtplugMessageUnion.fromJson (ButtplugMessageUnion.toJson m) = some m := by
  cases m <;>
    simp_all [ButtplugMessageUnion.toJson, ButtplugMessageUnion.fromJson,
      ButtplugMessageUnion.allFinite]

/-- C2 witness: the amended round-trip at the concrete value Ok with id
0. -/
theorem union_serde_roundtrip_witness :
    ButtplugMessageUnion.allFinite (.Ok ⟨0⟩) = true
  ∧ ButtplugMessageUnion.fromJson (ButtplugMessageUnion.toJson (.Ok ⟨0⟩))
        = some (.Ok ⟨0⟩) :=
  ⟨rfl, union_serde_roundtrip_on_finite (.Ok ⟨0⟩) rfl⟩

/-- C2 counterexample: a VibrateCmd whose speed is NaN serializes its
Speed as null (serde_json's behavior for non-finite doubles), and the
null no longer deserializes as f64, so serialize-then-deserialize is not
the identity on every union value. -/
theorem union_serde_roundtrip_nan_counterexample :
    ButtplugMessageUnion.fromJson (ButtplugMessageUnion.toJson
        (.VibrateCmd ⟨1, 0, [⟨0, F64.nan⟩]⟩)) = none := by
  decide

/-- C3 (amended): ErrorCode serializes to JSON as its numeric
discriminant 0-4 (ErrorUnknown = 0 through ErrorDevice = 4) and
deserializes from those numerics; LogLevel, which derives the plain
serde forms rather than the _repr ones, serializes as its variant-name
string ("Off" through "Trace") and deserializes from that string. -/
theorem serde_enum_repr_amended :
    errorCodeToJson .ErrorUnknown = Json.num 0
  ∧ errorCodeToJson .ErrorHandshake = Json.num 1
  ∧ errorCodeToJson .ErrorPing = Json.num 2
  ∧ errorCodeToJson .ErrorMessage = Json.num 3
  ∧ errorCodeToJson .ErrorDevice = Json.num 4
  ∧ (∀ c : ErrorCode, jsonToErrorCode (errorCodeToJson c) = some c)
  ∧ (∀ l : LogLevel, logLevelToJson l = Json.str l.variantName)
  ∧ (∀ l : LogLevel, jsonToLogLevel (logLevelToJson l) = some l) :=
  ⟨rfl, rfl, rfl, rfl, rfl,
   fun c => jsonToErrorCode_errorCodeToJson c,
   fun l => by cases l <;> rfl,
   fun l => jsonToLogLevel_logLevelToJson l⟩

/-- C3 counterexample: LogLevel does not serialize as its numeric
discriminant — Off serializes as the string "Off", not as the number 0. -/
theorem logLevel_serialization_counterexample :
    logLevelToJson LogLevel.Off = Json.str "Off"
  ∧ logLevelToJson LogLevel.Off ≠ Json.num 0 :=
  ⟨rfl, fun h => Json.noConfusion h⟩

/-- C4 (amended): every device-command variant without a dedicated
handler arm is rejected with a ButtplugDeviceError (never Ok, never a
silent no-op) whose constant message names the protocol
("LovenseProtocol") and states that it does not accept that message
type — without naming which type it was. -/
theorem lovense_reject_device_error_amended (p : LovenseProtocol)
    (cmd : ButtplugDeviceCommandMessageUnion) (h : lovenseHandles cmd = false) :
    (p.parse_message cmd).2.1
        = .error (.ButtplugDeviceError ⟨lovenseRejectMsg⟩)
  ∧ hasSubChars "LovenseProtocol".toList lovenseRejectMsg.toList = true := by
  constructor
  · cases cmd <;> first | rfl | exact absurd h (by simp [lovenseHandles])
  · decide

/-- C4 witness: rejection of a concrete KiirooCmd. -/
theorem lovense_reject_device_error_witness :
    lovenseHandles (.KiirooCmd ⟨1, 0, ""⟩) = false
  ∧ (((LovenseProtocol.new 0 0).parse_message (.KiirooCmd ⟨1, 0, ""⟩)).2.1
        = .error (.ButtplugDeviceError ⟨lovenseRejectMsg⟩)
     ∧ hasSubChars "LovenseProtocol".toList lovenseRejectMsg.toList = true) :=
  ⟨rfl,
   lovense_reject_device_error_amended (LovenseProtocol.new 0 0)
     (.KiirooCmd ⟨1, 0, ""⟩) rfl⟩

/-- C4 counterexample: the rejection message is the constant string
"LovenseProtocol does not accept this message type.", which does not
contain the name of the unsupported message type (here KiirooCmd), so
the error message does not name the unsupported type. -/
theorem lovense_reject_counterexample :
    (LovenseProtocol.parse_message ⟨0, 0⟩ (.KiirooCmd ⟨2, 0, "c"⟩)).2.1
        = .error (.ButtplugDeviceError
            ⟨"LovenseProtocol does not accept this message type."⟩)
  ∧ hasSubChars "KiirooCmd".toList
        "LovenseProtocol does not accept this message type.".toList = false := by
  exact ⟨rfl, by decide⟩

/-- C5: stop handling is unconditional — for every protocol state and
every StopDeviceCmd, parse_message returns the state unchanged, replies
Ok echoing the request id, performs no transport write, never errors,
and running it twice in succession again replies Ok and leaves the state
equal to the original. -/
theorem lovense_stop_device_unconditional_ok (p : LovenseProtocol)
    (msg : StopDeviceCmd) :
    p.parse_message (.StopDeviceCmd msg) = (p, .ok (.Ok ⟨msg.id⟩), [])
  ∧ ((p.parse_message (.StopDeviceCmd msg)).1.parse_message
        (.StopDeviceCmd msg)).2.1 = .ok (.Ok ⟨msg.id⟩)
  ∧ ((p.parse_message (.StopDeviceCmd msg)).1.parse_message
        (.StopDeviceCmd msg)).1 = p :=
  ⟨rfl, rfl, rfl⟩

/-- C6: From<ButtplugError> for Error maps each of the five error
categories to its matching ErrorCode, stamps id 0, and carries the
category's message string through unchanged. -/
theorem error_from_buttplug_error_mapping (s : String) :
    Error.fromButtplugError (.ButtplugDeviceError ⟨s⟩) = ⟨0, .ErrorDevice, s⟩
  ∧ Error.fromButtplugError (.ButtplugMessageError ⟨s⟩) = ⟨0, .ErrorMessage, s⟩
  ∧ Error.fromButtplugError (.ButtplugPingError ⟨s⟩) = ⟨0, .ErrorPing, s⟩
  ∧ Error.fromButtplugError (.ButtplugHandshakeError ⟨s⟩) = ⟨0, .ErrorHandshake, s⟩
  ∧ Error.fromButtplugError (.ButtplugUnknownError ⟨s⟩) = ⟨0, .ErrorUnknown, s⟩ :=
  ⟨rfl, rfl, rfl, rfl, rfl⟩

/-- C7 (amended): for every u32 value, all 28 message variants of the
closed union round-trip it through set_id then get_id, both through the
ButtplugMessageUnion wrapper and on each concrete message struct. -/
theorem union_set_get_id_all_variants (i : U32) :
    (∀ m : ButtplugMessageUnion, (m.set_id i).get_id = i)
  ∧ (∀ x : Ok, (x.set_id i).get_id = i)
  ∧ (∀ x : Error, (x.set_id i).get_id = i)
  ∧ (∀ x : Ping, (x.set_id i).get_id = i)
  ∧ (∀ x : Test, (x.set_id i).get_id = i)
  ∧ (∀ x : RequestLog, (x.set_id i).get_id = i)
  ∧ (∀ x : Log, (x.set_id i).get_id = i)
  ∧ (∀ x : RequestServerInfo, (x.set_id i).get_id = i)
  ∧ (∀ x : ServerInfo, (x.set_id i).get_id = i)
  ∧ (∀ x : DeviceList, (x.set_id i).get_id = i)
  ∧ (∀ x : DeviceAdded, (x.set_id i).get_id = i)
  ∧ (∀ x : DeviceRemoved, (x.set_id i).get_id = i)
  ∧ (∀ x : StartScanning, (x.set_id i).get_id = i)
  ∧ (∀ x : StopScanning, (x.set_id i).get_id = i)
  ∧ (∀ x : ScanningFinished, (x.set_id i).get_id = i)
  ∧ (∀ x : RequestDeviceList, (x.set_id i).get_id = i)
  ∧ (∀ x : VibrateCmd, (x.set_id i).get_id = i)
  ∧ (∀ x : LinearCmd, (x.set_id i).get_id = i)
  ∧ (∀ x : RotateCmd, (x.set_id i).get_id = i)
  ∧ (∀ x : FleshlightLaunchFW12Cmd, (x.set_id i).get_id = i)
  ∧ (∀ x : LovenseCmd, (x.set_id i).get_id = i)
  ∧ (∀ x : KiirooCmd, (x.set_id i).get_id = i)
  ∧ (∀ x : VorzeA10CycloneCmd, (x.set_id i).get_id = i)
  ∧ (∀ x : SingleMotorVibrateCmd, (x.set_id i).get_id = i)
  ∧ (∀ x : RawWriteCmd, (x.set_id i).get_id = i)
  ∧ (∀ x : RawReadCmd, (x.set_id i).get_id = i)
  ∧ (∀ x : RawReading, (x.set_id i).get_id = i)
  ∧ (∀ x : StopDeviceCmd, (x.set_id i).get_id = i)
  ∧ (∀ x : StopAllDevices, (x.set_id i).get_id = i) :=
  ⟨fun m => by cases m <;> rfl,
   fun _ => rfl, fun _ => rfl, fun _ => rfl, fun _ => rfl, fun _ => rfl,
   fun _ => rfl, fun _ => rfl, fun _ => rfl, fun _ => rfl, fun _ => rfl,
   fun _ => rfl, fun _ => rfl, fun _ => rfl, fun _ => rfl, fun _ => rfl,
   fun _ => rfl, fun _ => rfl, fun _ => rfl, fun _ => rfl, fun _ => rfl,
   fun _ => rfl, fun _ => rfl, fun _ => rfl, fun _ => rfl, fun _ => rfl,
   fun _ => rfl, fun _ => rfl, fun _ => rfl⟩

/-- C7 counterexample: the closed union has 28 variants, not 27 — the
exemplars list holds one value per constructor of ButtplugMessageUnion
in declaration order, its serde tags are pairwise distinct, and it has
length 28. -/
theorem union_variant_count_counterexample :
    (unionExemplars.map ButtplugMessageUnion.variantTag).Nodup
  ∧ unionExemplars.length = 28
  ∧ unionExemplars.length ≠ 27 := by
  refine ⟨by decide, rfl, by decide⟩

/-- C8 (amended): the four messages with a hand-written Default impl
(Ping, StartScanning, StopScanning, RequestDeviceList) default to
id = 1; the other command/request-shaped messages receive id = 1 from
their new constructors, while their derived Default gives id = 0; the
response/event-shaped messages (Ok, ServerInfo, Log, DeviceList,
DeviceAdded, DeviceRemoved, ScanningFinished) default to id = 0. -/
theorem message_default_ids_amended :
    Ping.default.id = 1
  ∧ StartScanning.default.id = 1
  ∧ StopScanning.default.id = 1
  ∧ RequestDeviceList.default.id = 1
  ∧ Test.default.id = 0
  ∧ (∀ s : String, (Test.new s).id = 1)
  ∧ RequestServerInfo.default.id = 0
  ∧ (∀ (s : String) (v : U32), (RequestServerInfo.new s v).id = 1)
  ∧ VibrateCmd.default.id = 0
  ∧ (∀ (d : U32) (sp : List VibrateSubcommand), (VibrateCmd.new d sp).id = 1)
  ∧ LinearCmd.default.id = 0
  ∧ (∀ (d : U32) (ve : List VectorSubcommand), (LinearCmd.new d ve).id = 1)
  ∧ RotateCmd.default.id = 0
  ∧ (∀ (d : U32) (ro : List RotationSubcommand), (RotateCmd.new d ro).id = 1)
  ∧ FleshlightLaunchFW12Cmd.default.id = 0
  ∧ (∀ (d : U32) (po sp : U8), (FleshlightLaunchFW12Cmd.new d po sp).id = 1)
  ∧ (∀ (d : U32) (c : String), (LovenseCmd.new d c).id = 1)
  ∧ (∀ (d : U32) (c : String), (KiirooCmd.new d c).id = 1)
  ∧ VorzeA10CycloneCmd.default.id = 0
  ∧ (∀ (d sp : U32) (cw : Bool), (VorzeA10CycloneCmd.new d sp cw).id = 1)
  ∧ SingleMotorVibrateCmd.default.id = 0
  ∧ (∀ (d : U32) (sp : F64), (SingleMotorVibrateCmd.new d sp).id = 1)
  ∧ (∀ (d : U32) (e : Endpoint) (da : List U8) (wr : Bool),
        (RawWriteCmd.new d e da wr).id = 1)
  ∧ (∀ (d : U32) (e : Endpoint) (el : U32) (wa : Bool),
        (RawReadCmd.new d e el wa).id = 1)
  ∧ StopDeviceCmd.default.id = 0
  ∧ (∀ d : U32, (StopDeviceCmd.new d).id = 1)
  ∧ StopAllDevices.default.id = 0
  ∧ Ok.default.id = 0
  ∧ ServerInfo.default.id = 0
  ∧ (∀ (l : LogLevel) (s : String), (Log.new l s).id = 0)
  ∧ (∀ l : LogLevel, (RequestLog.new l).id = 1)
  ∧ DeviceList.default.id = 0
  ∧ DeviceAdded.default.id = 0
  ∧ DeviceRemoved.default.id = 0
  ∧ ScanningFinished.default.id = 0 :=
  ⟨rfl, rfl, rfl, rfl, rfl, fun _ => rfl, rfl, fun _ _ => rfl, rfl,
   fun _ _ => rfl, rfl, fun _ _ => rfl, rfl, fun _ _ => rfl, rfl,
   fun _ _ _ => rfl, fun _ _ => rfl, fun _ _ => rfl, rfl,
   fun _ _ _ => rfl, rfl, fun _ _ => rfl, fun _ _ _ _ => rfl,
   fun _ _ _ _ => rfl, rfl, fun _ => rfl, rfl, rfl, rfl,
   fun _ _ => rfl, fun _ => rfl, rfl, rfl, rfl, rfl⟩

/-- C8 counterexample: Test is command/request-shaped but derives
Default, so its default constructor yields id 0, not 1. -/
theorem test_default_id_counterexample :
    Test.default.id = 0 ∧ Test.default.id ≠ 1 :=
  ⟨rfl, by decide⟩

/-- C9: code-bug evidence for the initialization gate — initialize() has
an empty body (the state is unchanged and no ready flag exists), and
parse_message on a freshly constructed protocol on which initialize has
never run accepts a StopDeviceCmd and replies Ok instead of rejecting
it. -/
theorem lovense_uninitialized_accepts_commands :
    LovenseProtocol.initCall (LovenseProtocol.new 0 0) = LovenseProtocol.new 0 0
  ∧ ((LovenseProtocol.new 0 0).parse_message
        (.StopDeviceCmd (StopDeviceCmd.new 0))).2.1 = .ok (.Ok ⟨1⟩) :=
  ⟨rfl, rfl⟩

/-- C10: as_union on the already-unified representation never returns a
value (the source unconditionally panics there), while as_union on each
of the 28 concrete message structs returns the corresponding union
case. -/
theorem as_union_panics_on_union_wraps_concrete :
    (∀ m : ButtplugMessageUnion, m.as_union = none)
  ∧ (∀ x : Ok, x.as_union = ButtplugMessageUnion.Ok x)
  ∧ (∀ x : Error, x.as_union = ButtplugMessageUnion.Error x)
  ∧ (∀ x : Ping, x.as_union = ButtplugMessageUnion.Ping x)
  ∧ (∀ x : Test, x.as_union = ButtplugMessageUnion.Test x)
  ∧ (∀ x : RequestLog, x.as_union = ButtplugMessageUnion.RequestLog x)
  ∧ (∀ x : Log, x.as_union = ButtplugMessageUnion.Log x)
  ∧ (∀ x : RequestServerInfo, x.as_union = ButtplugMessageUnion.RequestServerInfo x)
  ∧ (∀ x : ServerInfo, x.as_union = ButtplugMessageUnion.ServerInfo x)
  ∧ (∀ x : DeviceList, x.as_union = ButtplugMessageUnion.DeviceList x)
  ∧ (∀ x : DeviceAdded, x.as_union = ButtplugMessageUnion.DeviceAdded x)
  ∧ (∀ x : DeviceRemoved, x.as_union = ButtplugMessageUnion.DeviceRemoved x)
  ∧ (∀ x : StartScanning, x.as_union = ButtplugMessageUnion.StartScanning x)
  ∧ (∀ x : StopScanning, x.as_union = ButtplugMessageUnion.StopScanning x)
  ∧ (∀ x : ScanningFinished, x.as_union = ButtplugMessageUnion.ScanningFinished x)
  ∧ (∀ x : RequestDeviceList, x.as_union = ButtplugMessageUnion.RequestDeviceList x)
  ∧ (∀ x : VibrateCmd, x.as_union = ButtplugMessageUnion.VibrateCmd x)
  ∧ (∀ x : LinearCmd, x.as_union = ButtplugMessageUnion.LinearCmd x)
  ∧ (∀ x : RotateCmd, x.as_union = ButtplugMessageUnion.RotateCmd x)
  ∧ (∀ x : FleshlightLaunchFW12Cmd, x.as_union = ButtplugMessageUnion.FleshlightLaunchFW12Cmd x)
  ∧ (∀ x : LovenseCmd, x.as_union = ButtplugMessageUnion.LovenseCmd x)
  ∧ (∀ x : KiirooCmd, x.as_union = ButtplugMessageUnion.KiirooCmd x)
  ∧ (∀ x : VorzeA10CycloneCmd, x.as_union = ButtplugMessageUnion.VorzeA10CycloneCmd x)
  ∧ (∀ x : SingleMotorVibrateCmd, x.as_union = ButtplugMessageUnion.SingleMotorVibrateCmd x)
  ∧ (∀ x : RawWriteCmd, x.as_union = ButtplugMessageUnion.RawWriteCmd x)
  ∧ (∀ x : RawReadCmd, x.as_union = ButtplugMessageUnion.RawReadCmd x)
  ∧ (∀ x : RawReading, x.as_union = ButtplugMessageUnion.RawReading x)
  ∧ (∀ x : StopDeviceCmd, x.as_union = ButtplugMessageUnion.StopDeviceCmd x)
  ∧ (∀ x : StopAllDevices, x.as_union = ButtplugMessageUnion.StopAllDevices x) :=
  ⟨fun _ => rfl,
   fun _ => rfl, fun _ => rfl, fun _ => rfl, fun _ => rfl, fun _ => rfl,
   fun _ => rfl, fun _ => rfl, fun _ => rfl, fun _ => rfl, fun _ => rfl,
   fun _ => rfl, fun _ => rfl, fun _ => rfl, fun _ => rfl, fun _ => rfl,
   fun _ => rfl, fun _ => rfl, fun _ => rfl, fun _ => rfl, fun _ => rfl,
   fun _ => rfl, fun _ => rfl, fun _ => rfl, fun _ => rfl, fun _ => rfl,
   fun _ => rfl, fun _ => rfl, fun _ => rfl⟩

end Buttplug
